import Mathlib

/-!
Verification of the SocialCog.io social-network-analysis core
(`socialNetworkService.js`): the cross-platform network-graph builder,
the heuristic scoring engine, and the orchestrator cache keys.

The JavaScript source is shallowly embedded:
* JS numbers are modelled as exact rationals; `NaN` (which arises when
  arithmetic meets a missing field) is modelled by the extra constructor
  `JSNum.nan`.  Division by zero never occurs in the embedded code paths
  (every division is guarded or has a positive constant denominator), so
  `Infinity` is not modelled.
* optional / possibly-`undefined` object fields are `Option` values;
  JS truthiness ("" , 0, NaN, undefined are falsy) is made explicit.
* a thrown `TypeError` (method call on `undefined`) is an `Except` error.
* the adapter services (`twitterService`, `linkedinService`) are passed in
  as explicit fetch functions returning `Except`.
-/

/-- JS truthiness of a possibly-undefined string: `undefined`/`null` and
the empty string are falsy. -/
def truthyStr (o : Option String) : Bool :=
  match o with
  | none => false
  | some s => s != ""

/-- JS truthiness of a possibly-undefined boolean. -/
def truthyBool (o : Option Bool) : Bool :=
  match o with
  | none => false
  | some b => b

/-- A JavaScript number: an exact rational, or `NaN`. -/
inductive JSNum where
  | num : ℚ → JSNum
  | nan : JSNum
deriving Repr, DecidableEq

/-- JS addition; `NaN` propagates. -/
def JSNum.add : JSNum → JSNum → JSNum
  | .num a, .num b => .num (a + b)
  | _, _ => .nan

/-- JS multiplication; `NaN` propagates. -/
def JSNum.mul : JSNum → JSNum → JSNum
  | .num a, .num b => .num (a * b)
  | _, _ => .nan

/-- JS division; `NaN` propagates.  Division by zero yields `nan` here:
in the embedded code every division is either guarded by a positivity
check or has a positive constant denominator, so the JS `Infinity`
behaviour of `x/0` is never exercised. -/
def JSNum.div : JSNum → JSNum → JSNum
  | .num a, .num b => if b = 0 then .nan else .num (a / b)
  | _, _ => .nan

instance : Add JSNum := ⟨JSNum.add⟩

instance : Mul JSNum := ⟨JSNum.mul⟩

instance : Div JSNum := ⟨JSNum.div⟩

/-- JS `<`; any comparison with `NaN` is false. -/
def JSNum.ltb : JSNum → JSNum → Bool
  | .num a, .num b => decide (a < b)
  | _, _ => false

/-- JS `>`; any comparison with `NaN` is false. -/
def JSNum.gtb (a b : JSNum) : Bool := JSNum.ltb b a

/-- `Math.min`; `NaN` propagates. -/
def JSNum.minJ : JSNum → JSNum → JSNum
  | .num a, .num b => .num (Min.min a b)
  | _, _ => .nan

/-- `Math.round`: round half towards positive infinity; `NaN` propagates. -/
def JSNum.round : JSNum → JSNum
  | .num a => .num ((⌊a + 1/2⌋ : ℤ) : ℚ)
  | .nan => .nan

/-- JS truthiness of a number: `0` and `NaN` are falsy. -/
def JSNum.truthy : JSNum → Bool
  | .num a => decide (a ≠ 0)
  | .nan => false

/-- JS `a || b` on numbers: `a` when truthy, else `b`. -/
def JSNum.orJ (a b : JSNum) : JSNum := if a.truthy then a else b

/-- Read a possibly-undefined numeric field: a missing field entering
arithmetic behaves as `NaN`. -/
def optNum (o : Option ℚ) : JSNum :=
  match o with
  | some q => .num q
  | none => .nan

/-- A platform profile record as assembled by the adapter services.
Fields the platform does not supply are `none` (JS `undefined`/`null`).
Numeric fields are rationals; `created_at` is the parsed creation
timestamp in epoch milliseconds. -/
structure Profile where
  id : String
  name : Option String := none
  username : Option String := none
  platform : Option String := none
  bio : Option String := none
  headline : Option String := none
  summary : Option String := none
  industry : Option String := none
  location : Option String := none
  external_url : Option String := none
  website : Option String := none
  profile_image_url : Option String := none
  profile_url : Option String := none
  followers : Option ℚ := none
  following : Option ℚ := none
  posts : Option ℚ := none
  likes : Option ℚ := none
  connections : Option ℚ := none
  verified : Option Bool := none
  created_at : Option ℚ := none
deriving Repr, DecidableEq

/-- A fetched connection set: declared total `count` plus the returned
sequences (`followers` for Twitter, `connections` for LinkedIn); a field
the fetch did not populate is `none`. -/
structure ConnectionSet where
  profile_id : Option String := none
  count : Option ℚ := none
  followers : Option (List Profile) := none
  connections : Option (List Profile) := none
deriving Repr, DecidableEq

/-- `getDaysSinceCreation(createdAt)`: days since the account was created,
with a floor of 1, defaulting to 365 when the timestamp is unavailable.
`now` is the ambient clock (epoch ms), passed explicitly. -/
def getDaysSinceCreation (now : ℚ) (createdAt : Option ℚ) : ℚ :=
  match createdAt with
  | none => 365
  | some created => Max.max 1 ((⌊(now - created) / (1000 * 60 * 60 * 24)⌋ : ℤ) : ℚ)

/-- `calculateTwitterProfileStrength(profile)`: additive completeness
points plus capped follower/post contributions, clamped to 100. -/
def calculateTwitterProfileStrength (profile : Profile) : JSNum :=
  let score : ℚ := 0
  let score := if truthyStr profile.name then score + 10 else score
  let score := if truthyStr profile.bio then score + 15 else score
  let score := if truthyStr profile.location then score + 10 else score
  let score := if truthyStr profile.external_url then score + 10 else score
  let score := if truthyStr profile.profile_image_url then score + 5 else score
  let score := if truthyBool profile.verified then score + 20 else score
  let followerRatio := JSNum.minJ (optNum profile.followers / .num 1000) (.num 30)
  let postActivity := JSNum.minJ (optNum profile.posts / .num 100) (.num 20)
  JSNum.minJ (.num 100) (JSNum.round (.num score + followerRatio + postActivity))

/-- `calculateLinkedInProfileStrength(profile)`. -/
def calculateLinkedInProfileStrength (profile : Profile) : JSNum :=
  let score : ℚ := 0
  let score := if truthyStr profile.name then score + 10 else score
  let score := if truthyStr profile.headline then score + 15 else score
  let score := if truthyStr profile.summary then score + 20 else score
  let score := if truthyStr profile.location then score + 10 else score
  let score := if truthyStr profile.industry then score + 15 else score
  let score := if truthyStr profile.profile_image_url then score + 5 else score
  let connectionScore := JSNum.minJ (optNum profile.connections / .num 10) (.num 25)
  JSNum.minJ (.num 100) (JSNum.round (.num score + connectionScore))

/-- `calculateTwitterEngagement(profile)`: bucketed follower ratio, post
frequency, verification bonus and likes-per-post, clamped to 100. -/
def calculateTwitterEngagement (now : ℚ) (profile : Profile) : JSNum :=
  let followersToFollowingRatio :=
    if JSNum.gtb (optNum profile.following) (.num 0) then
      optNum profile.followers / optNum profile.following
    else optNum profile.followers
  let postsPerDay :=
    optNum profile.posts / .num (Max.max 1 (getDaysSinceCreation now profile.created_at))
  let engagementScore : ℚ := 0
  let engagementScore :=
    if JSNum.gtb followersToFollowingRatio (.num 10) then engagementScore + 30
    else if JSNum.gtb followersToFollowingRatio (.num 1) then engagementScore + 20
    else engagementScore + 10
  let engagementScore :=
    if JSNum.gtb postsPerDay (.num 5) then engagementScore + 20
    else if JSNum.gtb postsPerDay (.num 1) then engagementScore + 30
    else if JSNum.gtb postsPerDay (.num (1/10)) then engagementScore + 25
    else engagementScore + 10
  let engagementScore :=
    if truthyBool profile.verified then engagementScore + 20 else engagementScore
  let likesPerPost :=
    if JSNum.gtb (optNum profile.posts) (.num 0) then
      optNum profile.likes / optNum profile.posts
    else .num 0
  let engagementScore :=
    if JSNum.gtb likesPerPost (.num 10) then engagementScore + 20
    else if JSNum.gtb likesPerPost (.num 1) then engagementScore + 15
    else engagementScore + 5
  JSNum.minJ (.num 100) (JSNum.round (.num engagementScore))

/-- lodash `_.meanBy(list, "followers")`: mean of the follower counts;
`NaN` on an empty list or when an entry has no follower count. -/
def meanByFollowers (l : List Profile) : JSNum :=
  if l.length = 0 then .nan
  else (l.foldl (fun acc p => acc + optNum p.followers) (.num 0)) / .num l.length

/-- `calculateNetworkReach(connections)`: direct-connection contribution,
bucketed average influence and a verified-connection bonus, clamped
to 100; `0` when the connection set or its follower list is absent. -/
def calculateNetworkReach (connections : Option ConnectionSet) : JSNum :=
  match connections with
  | none => .num 0
  | some cs =>
    match cs.followers with
    | none => .num 0
    | some followersList =>
      let totalConnections : ℚ :=
        match cs.count with
        | some k => if k ≠ 0 then k else followersList.length
        | none => followersList.length
      let averageInfluence := JSNum.orJ (meanByFollowers followersList) (.num 0)
      let reachScore : ℚ := 0
      let reachScore := reachScore + Min.min (totalConnections / 10) 40
      let reachScore :=
        if JSNum.gtb averageInfluence (.num 10000) then reachScore + 30
        else if JSNum.gtb averageInfluence (.num 1000) then reachScore + 20
        else if JSNum.gtb averageInfluence (.num 100) then reachScore + 10
        else reachScore + 5
      let verifiedCount : ℚ := (followersList.filter (fun f => truthyBool f.verified)).length
      let reachScore := reachScore + Min.min (verifiedCount * 5) 30
      JSNum.minJ (.num 100) (JSNum.round (.num reachScore))

/-- `calculateInfluenceScore(profile, connections)`: weighted blend
`strength*0.3 + engagement*0.4 + reach*0.3`, rounded. -/
def calculateInfluenceScore (now : ℚ) (profile : Profile)
    (connections : Option ConnectionSet) : JSNum :=
  let profileStrength := calculateTwitterProfileStrength profile
  let engagementPotential := calculateTwitterEngagement now profile
  let networkReach := calculateNetworkReach connections
  JSNum.round
    (profileStrength * .num (3/10) + engagementPotential * .num (4/10)
      + networkReach * .num (3/10))

/-- JS regexp class `\w`: letters, digits and underscore
(ASCII idealization of the JS semantics). -/
def isWordChar (c : Char) : Bool := c.isAlphanum || c = '_'

/-- `String.prototype.includes`. -/
def jsIncludes (s sub : String) : Bool := decide (sub.data <:+: s.data)

/-- `String.prototype.toLowerCase`: per-character lowercasing (ASCII
idealization of the JS semantics, kept computable). -/
def jsToLowerCase (s : String) : String := String.mk (s.data.map Char.toLower)

/-- `normalizeString(str)`: lowercase, strip non-word non-space
characters, trim; `""` for a missing string. -/
def normalizeString (str : Option String) : String :=
  match str with
  | none => ""
  | some s =>
    (String.mk ((s.data.map Char.toLower).filter
      (fun c => isWordChar c || c.isWhitespace))).trim

/-- `isNameSimilar(name1, name2)`: either normalized name contains the
first space-separated token of the other. -/
def isNameSimilar (name1 name2 : Option String) : Bool :=
  let norm1 := normalizeString name1
  let norm2 := normalizeString name2
  jsIncludes norm1 ((norm2.splitOn " ").headD "")
    || jsIncludes norm2 ((norm1.splitOn " ").headD "")

/-- `isLocationSimilar(loc1, loc2)`: the normalized locations share a
word longer than 2 characters.  The split is on whitespace runs
(JS `/\s+/`); empty fragments cannot pass the length check. -/
def isLocationSimilar (loc1 loc2 : Option String) : Bool :=
  let norm1 := normalizeString loc1
  let norm2 := normalizeString loc2
  let words1 := norm1.split (fun c => c.isWhitespace)
  let words2 := norm2.split (fun c => c.isWhitespace)
  words1.any (fun word => words2.contains word && decide (2 < word.length))

/-- `calculateConsistencyScore(twitterProfile, linkedinProfile)`:
field-by-field cross-platform similarity, clamped to 100. -/
def calculateConsistencyScore (twitterProfile linkedinProfile : Profile) : JSNum :=
  let consistencyScore : ℚ := 0
  let consistencyScore :=
    if normalizeString twitterProfile.name = normalizeString linkedinProfile.name then
      consistencyScore + 25
    else if isNameSimilar twitterProfile.name linkedinProfile.name then
      consistencyScore + 15
    else consistencyScore
  let consistencyScore :=
    if truthyStr twitterProfile.location && truthyStr linkedinProfile.location then
      if normalizeString twitterProfile.location = normalizeString linkedinProfile.location then
        consistencyScore + 20
      else if isLocationSimilar twitterProfile.location linkedinProfile.location then
        consistencyScore + 10
      else consistencyScore
    else consistencyScore
  let consistencyScore :=
    if truthyStr twitterProfile.profile_image_url && truthyStr linkedinProfile.profile_image_url then
      consistencyScore + 15
    else consistencyScore
  let consistencyScore :=
    if truthyStr twitterProfile.bio && truthyStr linkedinProfile.summary then
      consistencyScore + 15
    else consistencyScore
  let consistencyScore :=
    if truthyStr twitterProfile.external_url && truthyStr linkedinProfile.website then
      consistencyScore + 15
    else consistencyScore
  JSNum.minJ (.num 100) (.num consistencyScore)

/-- A visualization node as produced by `formatNodeForMap`.  The
float-valued `size` field (`calculateNodeSize`, a clamped base-10
logarithm used purely for rendering) is omitted from the embedding. -/
structure GraphNode where
  id : String
  name : Option String
  username : Option String
  platform : Option String
  followers : ℚ
  verified : Bool
  profile_image_url : Option String
  profile_url : Option String
  color : String
  group : Option String
deriving Repr, DecidableEq

/-- A directed relation edge of the network map. -/
structure GraphEdge where
  source : String
  target : String
  type : String
  platform : String
deriving Repr, DecidableEq

/-- JS `a || b || 0` on two possibly-missing numeric fields
(`profile.followers || profile.connections || 0`). -/
def jsOrNumOpt (a b : Option ℚ) : ℚ :=
  match a with
  | some q => if q ≠ 0 then q else match b with
    | some r => if r ≠ 0 then r else 0
    | none => 0
  | none => match b with
    | some r => if r ≠ 0 then r else 0
    | none => 0

/-- `getPlatformColor(platform)`: fixed lookup with a gray default. -/
def getPlatformColor (platform : Option String) : String :=
  match platform with
  | some p =>
    if jsToLowerCase p = "twitter" then "#1DA1F2"
    else if jsToLowerCase p = "linkedin" then "#0077B5"
    else "#666666"
  | none => "#666666"

/-- `formatNodeForMap(profile)`: visualization-ready projection of a
profile (minus the omitted float `size`). -/
def formatNodeForMap (profile : Profile) : GraphNode :=
  { id := profile.id
    name := profile.name
    username := profile.username
    platform := profile.platform
    followers := jsOrNumOpt profile.followers profile.connections
    verified := truthyBool profile.verified
    profile_image_url := profile.profile_image_url
    profile_url := profile.profile_url
    color := getPlatformColor profile.platform
    group := profile.platform }

/-- Result of the inner `for (const connection of connections...)` loop
of the network-map builders: entries enqueued for deeper expansion, the
updated seen-set, the leaf nodes emitted, and the edges emitted. -/
structure ExpandResult where
  enqueued : List (Profile × ℕ)
  processed : List String
  leafNodes : List GraphNode
  newEdges : List GraphEdge
deriving Repr, DecidableEq

/-- The inner connection loop shared by `buildTwitterNetworkMap` and
`buildLinkedInNetworkMap`: for each fetched connection emit an edge;
enqueue it when unseen and below the depth bound, else emit it as a leaf
node when unseen. -/
def expandConnections (platformTag edgeType pid : String) (currentDepth depth : ℕ)
    (conns : List Profile) (processed : List String) : ExpandResult :=
  match conns with
  | [] => ⟨[], processed, [], []⟩
  | connection :: restConns =>
    let edge : GraphEdge :=
      { source := pid, target := connection.id, type := edgeType, platform := platformTag }
    if ¬ processed.contains connection.id ∧ currentDepth + 1 < depth then
      let r := expandConnections platformTag edgeType pid currentDepth depth restConns processed
      ⟨({ connection with platform := some platformTag }, currentDepth + 1) :: r.enqueued,
        r.processed, r.leafNodes, edge :: r.newEdges⟩
    else if ¬ processed.contains connection.id then
      let r := expandConnections platformTag edgeType pid currentDepth depth restConns
        (connection.id :: processed)
      ⟨r.enqueued, r.processed,
        formatNodeForMap { connection with platform := some platformTag } :: r.leafNodes,
        edge :: r.newEdges⟩
    else
      let r := expandConnections platformTag edgeType pid currentDepth depth restConns processed
      ⟨r.enqueued, r.processed, r.leafNodes, edge :: r.newEdges⟩

/-- The `while (queue.length > 0 && networkMap.nodes.length < maxNodes)`
traversal loop shared by `buildTwitterNetworkMap` and
`buildLinkedInNetworkMap`.  `getList` selects the platform connection
field (`followers` / `connections`); a failed connections fetch is
caught: the node contributes no edges and traversal continues. -/
def buildLoop (getList : ConnectionSet → Option (List Profile))
    (platformTag edgeType : String)
    (fetch : String → ℕ → Except String ConnectionSet) (depth maxNodes : ℕ)
    (queue : List (Profile × ℕ)) (processed : List String)
    (nodes : List GraphNode) (edges : List GraphEdge) :
    List GraphNode × List GraphEdge :=
  match queue with
  | [] => (nodes, edges)
  | (profile, currentDepth) :: rest =>
    if nodes.length < maxNodes then
      if processed.contains profile.id ∨ depth ≤ currentDepth then
        buildLoop getList platformTag edgeType fetch depth maxNodes rest processed nodes edges
      else
        let processed1 := profile.id :: processed
        let nodes1 := nodes ++ [formatNodeForMap profile]
        match fetch profile.id 20 with
        | .error _ =>
          buildLoop getList platformTag edgeType fetch depth maxNodes rest processed1 nodes1 edges
        | .ok connections =>
          let r := expandConnections platformTag edgeType profile.id currentDepth depth
            ((getList connections).getD []) processed1
          buildLoop getList platformTag edgeType fetch depth maxNodes (rest ++ r.enqueued)
            r.processed (nodes1 ++ r.leafNodes) (edges ++ r.newEdges)
    else (nodes, edges)
termination_by (maxNodes - nodes.length, queue.length)
decreasing_by
  · apply Prod.Lex.right
    simp
  · apply Prod.Lex.left
    simp only [List.length_append, List.length_cons, List.length_nil]
    omega
  · apply Prod.Lex.left
    simp only [List.length_append, List.length_cons, List.length_nil]
    omega

/-- `buildTwitterNetworkMap(centerProfile, networkMap, depth, maxNodes)`
with an initially empty map, returning its `(nodes, edges)`. -/
def buildTwitterNetworkMap (fetch : String → ℕ → Except String ConnectionSet)
    (centerProfile : Profile) (depth maxNodes : ℕ) :
    List GraphNode × List GraphEdge :=
  buildLoop ConnectionSet.followers "twitter" "follows" fetch depth maxNodes
    [(centerProfile, 0)] [] [] []

/-- `buildLinkedInNetworkMap(centerProfile, networkMap, depth, maxNodes)`
with an initially empty map, returning its `(nodes, edges)`. -/
def buildLinkedInNetworkMap (fetch : String → ℕ → Except String ConnectionSet)
    (centerProfile : Profile) (depth maxNodes : ℕ) :
    List GraphNode × List GraphEdge :=
  buildLoop ConnectionSet.connections "linkedin" "connection" fetch depth maxNodes
    [(centerProfile, 0)] [] [] []

/-- Decimal digits of a natural number, most significant first: the JS
string interpolation of a number in a template literal. -/
def natToDecimalDigits (n : ℕ) : List Char :=
  if h : n < 10 then [Nat.digitChar n]
  else natToDecimalDigits (n / 10) ++ [Nat.digitChar (n % 10)]
decreasing_by
  exact Nat.div_lt_self (by omega) (by omega)

/-- Decimal string of a natural number (`${n}` in a template literal). -/
def natToDecimal (n : ℕ) : String := String.mk (natToDecimalDigits n)

/-- Cache key of `analyzeUserProfile`:
the template literal built from platform and identifier. -/
def analyzeUserProfileCacheKey (platform identifier : String) : String :=
  "analysis_" ++ platform ++ "_" ++ identifier

/-- Cache key of `findCrossplatformConnections`. -/
def findCrossplatformConnectionsCacheKey (twitterUser linkedinUser : String) : String :=
  "crossplatform_" ++ twitterUser ++ "_" ++ linkedinUser

/-- Cache key of `generateNetworkMap`. -/
def generateNetworkMapCacheKey (platform userIdentifier : String)
    (depth maxNodes : ℕ) : String :=
  "network_map_" ++ platform ++ "_" ++ userIdentifier ++ "_"
    ++ natToDecimal depth ++ "_" ++ natToDecimal maxNodes

/-- `generateTwitterRecommendations(profile, connections)`: deficiency
rules pushed in declaration order.  No rule dereferences a possibly
missing field, so the function never throws. -/
def generateTwitterRecommendations (profile : Profile)
    (connections : ConnectionSet) : List String :=
  let recommendations : List String := []
  let recommendations :=
    if !truthyStr profile.bio then
      recommendations ++ ["Add a compelling bio to increase profile completeness"]
    else recommendations
  let recommendations :=
    if JSNum.ltb (optNum profile.followers) (optNum profile.following) then
      recommendations
        ++ ["Focus on creating engaging content to improve follower-to-following ratio"]
    else recommendations
  let recommendations :=
    if JSNum.ltb (optNum profile.posts) (.num 100) then
      recommendations ++ ["Increase posting frequency to build audience engagement"]
    else recommendations
  let verifiedConnections : ℚ :=
    match connections.followers with
    | some l => (l.filter (fun f => truthyBool f.verified)).length
    | none => 0
  let recommendations :=
    if verifiedConnections < 5 then
      recommendations ++ ["Engage with verified accounts to improve network quality"]
    else recommendations
  recommendations

/-- `generateLinkedInRecommendations(profile, connections)`: the final
rule calls `profile.headline.includes("|")` without a guard, so a
missing/null headline raises a `TypeError` (the `Except.error`). -/
def generateLinkedInRecommendations (profile : Profile)
    (connections : ConnectionSet) : Except Unit (List String) :=
  let recommendations : List String := []
  let recommendations :=
    if !truthyStr profile.summary then
      recommendations ++ ["Add a professional summary to strengthen your profile"]
    else recommendations
  let recommendations :=
    if JSNum.ltb (optNum profile.connections) (.num 50) then
      recommendations ++ ["Grow your network to at least 50+ connections for better visibility"]
    else recommendations
  let recommendations :=
    if !truthyStr profile.industry then
      recommendations ++ ["Add your industry to improve discoverability"]
    else recommendations
  match profile.headline with
  | none => .error ()
  | some headline =>
    .ok (if !jsIncludes headline "|" then
      recommendations ++ ["Enhance your headline with key skills or achievements"]
    else recommendations)

/-- `generateTwitterOptimizationTips(profile)`: never throws. -/
def generateTwitterOptimizationTips (now : ℚ) (profile : Profile) : List String :=
  let tips : List String := []
  let tips :=
    if !truthyStr profile.location then
      tips ++ ["Add location for better local discovery"]
    else tips
  let tips :=
    if !truthyStr profile.external_url then
      tips ++ ["Add website URL to drive traffic"]
    else tips
  let tips :=
    if JSNum.ltb (optNum profile.posts / .num (getDaysSinceCreation now profile.created_at))
        (.num (1/2)) then
      tips ++ ["Post more consistently (aim for 3-5 posts per week)"]
    else tips
  tips

/-- `generateLinkedInOptimizationTips(profile)`: the final rule reads
`profile.headline.length` without a guard, so a missing/null headline
raises a `TypeError`. -/
def generateLinkedInOptimizationTips (profile : Profile) :
    Except Unit (List String) :=
  let tips : List String := []
  let tips :=
    if JSNum.ltb (optNum profile.connections) (.num 500) then
      tips ++ ["Aim for 500+ connections to unlock additional LinkedIn features"]
    else tips
  let tips :=
    if !truthyStr profile.summary then
      tips ++ ["Write a compelling summary highlighting your expertise"]
    else tips
  match profile.headline with
  | none => .error ()
  | some headline =>
    .ok (if headline.length < 50 then
      tips ++ ["Utilize full headline character limit (220 chars)"]
    else tips)

/-- `calculateProfessionalNetworkValue(connections)`: connection count,
industry diversity (distinct `industry` values, the `undefined` group
included as lodash `countBy` does) and seniority-keyword matches. -/
def calculateProfessionalNetworkValue (connections : Option ConnectionSet) : JSNum :=
  match connections with
  | none => .num 0
  | some cs =>
    match cs.connections with
    | none => .num 0
    | some connectionList =>
      let totalConnections : ℚ :=
        match cs.count with
        | some k => if k ≠ 0 then k else connectionList.length
        | none => connectionList.length
      let industryDiversity : ℚ := ((connectionList.map Profile.industry).dedup).length
      let networkValue : ℚ := 0
      let networkValue := networkValue + Min.min (totalConnections / 5) 40
      let networkValue := networkValue + Min.min (industryDiversity * 5) 30
      let seniorTitles := ["CEO", "CTO", "VP", "Director", "Manager", "Senior"]
      let seniorConnections : ℚ :=
        (connectionList.filter (fun conn =>
          match conn.headline with
          | some h => seniorTitles.any (fun title => jsIncludes h title)
          | none => false)).length
      let networkValue := networkValue + Min.min (seniorConnections * 2) 30
      JSNum.minJ (.num 100) (JSNum.round (.num networkValue))

/-- `calculateIndustryInfluence(profile, connections)`. -/
def calculateIndustryInfluence (profile : Profile) (connections : ConnectionSet) : JSNum :=
  if !truthyStr profile.industry then .num 0
  else
    let sameIndustryConnections : ℚ :=
      match connections.connections with
      | some l => (l.filter (fun conn => conn.industry = profile.industry)).length
      | none => 0
    let industryConnectionRatio :=
      if JSNum.gtb (optNum connections.count) (.num 0) then
        JSNum.div (.num sameIndustryConnections) (optNum connections.count)
      else .num 0
    let influenceScore : ℚ := 0
    let influenceScore :=
      if JSNum.gtb industryConnectionRatio (.num (5/10)) then influenceScore + 40
      else if JSNum.gtb industryConnectionRatio (.num (3/10)) then influenceScore + 30
      else if JSNum.gtb industryConnectionRatio (.num (1/10)) then influenceScore + 20
      else influenceScore + 10
    let influenceScore := influenceScore + Min.min (sameIndustryConnections / 5) 35
    let influenceScore :=
      if truthyStr profile.headline then influenceScore + 15 else influenceScore
    let influenceScore :=
      if truthyStr profile.summary then influenceScore + 10 else influenceScore
    JSNum.minJ (.num 100) (JSNum.round (.num influenceScore))

/-- `inferCareerLevel(headline)`: case-insensitive keyword matching. -/
def inferCareerLevel (headline : String) : String :=
  let seniorKeywords := ["CEO", "CTO", "VP", "Vice President", "Director", "Head of"]
  let midKeywords := ["Manager", "Lead", "Senior", "Principal"]
  let juniorKeywords := ["Associate", "Junior", "Intern", "Entry"]
  let headlineLower := jsToLowerCase headline
  if seniorKeywords.any (fun keyword => jsIncludes headlineLower (jsToLowerCase keyword)) then
    "Senior Executive"
  else if midKeywords.any (fun keyword => jsIncludes headlineLower (jsToLowerCase keyword)) then
    "Mid-Level Professional"
  else if juniorKeywords.any (fun keyword => jsIncludes headlineLower (jsToLowerCase keyword)) then
    "Early Career"
  else
    "Professional"

/-- `assessNetworkGrowthPotential(profile)`. -/
def assessNetworkGrowthPotential (profile : Profile) : JSNum :=
  let potential : ℚ := 0
  let potential :=
    if JSNum.ltb (optNum profile.connections) (.num 100) then potential + 40
    else if JSNum.ltb (optNum profile.connections) (.num 500) then potential + 30
    else potential + 20
  let potential := if truthyStr profile.summary then potential + 20 else potential
  let potential := if truthyStr profile.industry then potential + 20 else potential
  let potential := if truthyStr profile.location then potential + 10 else potential
  let potential := if truthyStr profile.headline then potential + 10 else potential
  JSNum.minJ (.num 100) (.num potential)

/-- JS `a || b` on possibly-missing strings (empty string is falsy). -/
def jsOrStr (a : Option String) (b : String) : String :=
  match a with
  | some s => if s ≠ "" then s else b
  | none => b

/-- Result record of `analyzeCareerTrajectory`. -/
structure CareerTrajectory where
  current_level : String
  industry_focus : String
  network_growth_potential : JSNum
  professional_brand_strength : JSNum
deriving Repr, DecidableEq

/-- `analyzeCareerTrajectory(profile)`: never throws (the headline is
read through `profile.headline || ""`). -/
def analyzeCareerTrajectory (profile : Profile) : CareerTrajectory :=
  { current_level := inferCareerLevel (jsOrStr profile.headline "")
    industry_focus := jsOrStr profile.industry "Unknown"
    network_growth_potential := assessNetworkGrowthPotential profile
    professional_brand_strength := calculateLinkedInProfileStrength profile }

/-- Result bundle of `analyzeTwitterProfile`. -/
structure TwitterAnalysis where
  platform : String
  profile_strength : JSNum
  engagement_potential : JSNum
  network_reach : JSNum
  influence_score : JSNum
  recommendations : List String
deriving Repr, DecidableEq

/-- `analyzeTwitterProfile(profile, connections)`: total, never throws. -/
def analyzeTwitterProfile (now : ℚ) (profile : Profile)
    (connections : ConnectionSet) : TwitterAnalysis :=
  { platform := "twitter"
    profile_strength := calculateTwitterProfileStrength profile
    engagement_potential := calculateTwitterEngagement now profile
    network_reach := calculateNetworkReach (some connections)
    influence_score := calculateInfluenceScore now profile (some connections)
    recommendations := generateTwitterRecommendations profile connections }

/-- Result bundle of `analyzeLinkedInProfile`. -/
structure LinkedInAnalysis where
  platform : String
  profile_strength : JSNum
  professional_network : JSNum
  industry_influence : JSNum
  career_trajectory : CareerTrajectory
  recommendations : List String
deriving Repr, DecidableEq

/-- `analyzeLinkedInProfile(profile, connections)`: throws exactly when
`generateLinkedInRecommendations` does (missing/null headline). -/
def analyzeLinkedInProfile (profile : Profile) (connections : ConnectionSet) :
    Except Unit LinkedInAnalysis :=
  match generateLinkedInRecommendations profile connections with
  | .error e => .error e
  | .ok recommendations =>
    .ok { platform := "linkedin"
          profile_strength := calculateLinkedInProfileStrength profile
          professional_network := calculateProfessionalNetworkValue (some connections)
          industry_influence := calculateIndustryInfluence profile connections
          career_trajectory := analyzeCareerTrajectory profile
          recommendations := recommendations }

/-- Metadata attached to a network map by `generateNetworkMap`
(the wall-clock `generated_at` timestamp is omitted). -/
structure MapMetadata where
  platform : String
  depth : ℕ
  max_nodes : ℕ
  total_nodes : Option ℕ := none
  total_edges : Option ℕ := none
deriving Repr, DecidableEq

/-- A network map as assembled by `generateNetworkMap`. -/
structure NetworkMap where
  center_node : Option GraphNode
  nodes : List GraphNode
  edges : List GraphEdge
  metadata : MapMetadata
deriving Repr, DecidableEq

/-- `generateNetworkMap(platform, userIdentifier, depth, maxNodes)`:
platform dispatch on the lowercased platform string, center-profile
fetch, traversal, then the center node and totals are set
unconditionally.  The four adapter operations are explicit arguments;
the result cache (keyed by `generateNetworkMapCacheKey`) is modelled as
the cache-miss path. -/
def generateNetworkMap
    (twitterGetUserProfile : String → Except String Profile)
    (twitterGetUserFollowers : String → ℕ → Except String ConnectionSet)
    (linkedinGetUserProfile : String → Except String Profile)
    (linkedinGetUserConnections : String → ℕ → Except String ConnectionSet)
    (platform userIdentifier : String) (depth maxNodes : ℕ) :
    Except String NetworkMap :=
  if jsToLowerCase platform = "twitter" then
    match twitterGetUserProfile userIdentifier with
    | .error e => .error e
    | .ok centerProfile =>
      let built := buildTwitterNetworkMap twitterGetUserFollowers centerProfile depth maxNodes
      .ok { center_node := some (formatNodeForMap centerProfile)
            nodes := built.1
            edges := built.2
            metadata := { platform := platform, depth := depth, max_nodes := maxNodes,
                          total_nodes := some built.1.length,
                          total_edges := some built.2.length } }
  else if jsToLowerCase platform = "linkedin" then
    match linkedinGetUserProfile userIdentifier with
    | .error e => .error e
    | .ok centerProfile =>
      let built := buildLinkedInNetworkMap linkedinGetUserConnections centerProfile depth maxNodes
      .ok { center_node := some (formatNodeForMap centerProfile)
            nodes := built.1
            edges := built.2
            metadata := { platform := platform, depth := depth, max_nodes := maxNodes,
                          total_nodes := some built.1.length,
                          total_edges := some built.2.length } }
  else .error ("Unsupported platform: " ++ platform)

/-- Replace every failing connections fetch of an adapter by a successful
fetch of an empty connection set (all fields absent). -/
def errorsToEmpty (fetch : String → ℕ → Except String ConnectionSet) :
    String → ℕ → Except String ConnectionSet :=
  fun id maxResults =>
    match fetch id maxResults with
    | .error _ => .ok {}
    | .ok cs => .ok cs

/-- A string with no underscore: inputs for which the underscore-separated
cache keys can be split back unambiguously. -/
def noUnderscore (s : String) : Prop := '_' ∉ s.data

/-- Fixture: a bare seed profile. -/
def profileU1 : Profile := { id := "u1" }

/-- Fixture: a bare connection profile. -/
def profileC1 : Profile := { id := "c1" }

/-- Fixture: a second bare connection profile. -/
def profileC2 : Profile := { id := "c2" }

/-- Fixture: a connection set with two followers. -/
def csTwoFollowers : ConnectionSet :=
  { count := some 2, followers := some [profileC1, profileC2] }

/-- Fixture: an adapter whose every connections fetch returns the same
two followers. -/
def fetchTwoFollowers : String → ℕ → Except String ConnectionSet :=
  fun _ _ => .ok csTwoFollowers

/-- Fixture: an adapter whose every connections fetch fails. -/
def fetchAlwaysFails : String → ℕ → Except String ConnectionSet :=
  fun _ _ => .error "service unavailable"

/-- Fixture: an adapter failing only for the seed id `u1`. -/
def fetchFailsForU1 : String → ℕ → Except String ConnectionSet :=
  fun id _ => if id = "u1" then .error "rate limited" else .ok csTwoFollowers

/-- Fixture: a profile-fetch adapter resolving every identifier to the
seed profile. -/
def getProfileU1 : String → Except String Profile :=
  fun _ => .ok profileU1

/-- Fixture: a fully populated Twitter-style profile. -/
def validTwitterProfile : Profile :=
  { id := "tw1", name := some "Alice Doe", username := some "alice",
    platform := some "twitter", bio := some "building things",
    location := some "Berlin", external_url := some "https://alice.example",
    profile_image_url := some "https://img.example/a.png",
    followers := some 1200, following := some 300, posts := some 40,
    likes := some 90, connections := some 80, verified := some true,
    created_at := some 0 }

/-- Fixture: a fully populated LinkedIn-style profile. -/
def validLinkedInProfile : Profile :=
  { id := "li1", name := some "Alice Doe", platform := some "linkedin",
    headline := some "Engineer | Maker", summary := some "profile summary",
    industry := some "Technology", location := some "Berlin",
    website := some "https://alice.example",
    profile_image_url := some "https://img.example/a.png",
    connections := some 80, verified := some true }

/-- Fixture: a fully populated follower entry. -/
def validFollower : Profile :=
  { id := "f1", name := some "Bob", followers := some 150, verified := some false }

/-- Fixture: a fully populated connection set. -/
def validConnectionSet : ConnectionSet :=
  { profile_id := some "tw1", count := some 1, followers := some [validFollower],
    connections := some [validFollower] }

/-- Fixture: a LinkedIn profile whose headline is absent. -/
def liProfileNoHeadline : Profile :=
  { id := "li2", summary := some "profile summary", connections := some 80 }

@[simp]
theorem JSNum.num_add_num (a b : ℚ) : JSNum.num a + JSNum.num b = JSNum.num (a + b) := rfl

@[simp]
theorem JSNum.num_mul_num (a b : ℚ) : JSNum.num a * JSNum.num b = JSNum.num (a * b) := rfl

theorem JSNum.num_div_num (a b : ℚ) (h : b ≠ 0) :
    JSNum.num a / JSNum.num b = JSNum.num (a / b) := by
  show JSNum.div _ _ = _
  simp [JSNum.div, h]

@[simp]
theorem JSNum.minJ_num (a b : ℚ) :
    JSNum.minJ (JSNum.num a) (JSNum.num b) = JSNum.num (Min.min a b) := rfl

@[simp]
theorem JSNum.round_num (a : ℚ) :
    JSNum.round (JSNum.num a) = JSNum.num ((⌊a + 1/2⌋ : ℤ) : ℚ) := rfl

/-- Any clamped rounded nonnegative score `Math.min(100, Math.round(s))`
is a natural number at most 100. -/
theorem scoreFinal (s : ℚ) (hs : 0 ≤ s) :
    ∃ n : ℕ, n ≤ 100 ∧ JSNum.minJ (.num 100) (JSNum.round (.num s)) = .num n := by
  have h0 : (0 : ℤ) ≤ ⌊s + 1/2⌋ := Int.floor_nonneg.mpr (by linarith)
  have hmin0 : (0 : ℤ) ≤ Min.min 100 ⌊s + 1/2⌋ := le_min (by norm_num) h0
  refine ⟨(Min.min 100 ⌊s + 1/2⌋).toNat, by omega, ?_⟩
  have hcast : (((Min.min 100 ⌊s + 1/2⌋).toNat : ℕ) : ℚ)
      = ((Min.min 100 ⌊s + 1/2⌋ : ℤ) : ℚ) := by
    exact_mod_cast congrArg (fun z : ℤ => (z : ℚ)) (Int.toNat_of_nonneg hmin0)
  simp only [JSNum.round_num, JSNum.minJ_num, JSNum.num.injEq, hcast]
  push_cast
  rfl

/-- Any clamped integral nonnegative score `Math.min(100, s)` is a
natural number at most 100. -/
theorem scoreFinalDen (s : ℚ) (hs : 0 ≤ s) (hden : s.den = 1) :
    ∃ n : ℕ, n ≤ 100 ∧ JSNum.minJ (.num 100) (.num s) = .num n := by
  have hnum : ((s.num : ℤ) : ℚ) = s := by
    rw [← Rat.num_div_den s, hden]
    norm_num
  have h0 : (0 : ℤ) ≤ s.num := by
    rw [← Rat.num_nonneg] at hs
    exact hs
  have hmin0 : (0 : ℤ) ≤ Min.min 100 s.num := le_min (by norm_num) h0
  refine ⟨(Min.min 100 s.num).toNat, by omega, ?_⟩
  have hcast : (((Min.min 100 s.num).toNat : ℕ) : ℚ)
      = ((Min.min 100 s.num : ℤ) : ℚ) := by
    exact_mod_cast congrArg (fun z : ℤ => (z : ℚ)) (Int.toNat_of_nonneg hmin0)
  simp only [JSNum.minJ_num, JSNum.num.injEq, hcast]
  push_cast
  rw [hnum]

/-- `calculateTwitterProfileStrength` yields an integer in `[0, 100]`
whenever the numeric fields are present and nonnegative. -/
theorem twitterStrength_mem (p : Profile) (f ps : ℚ)
    (hf : p.followers = some f) (hf0 : 0 ≤ f)
    (hp : p.posts = some ps) (hp0 : 0 ≤ ps) :
    ∃ n : ℕ, n ≤ 100 ∧ calculateTwitterProfileStrength p = .num n := by
  have hmin1 : (0 : ℚ) ≤ Min.min (f / 1000) 30 :=
    le_min (by positivity) (by norm_num)
  have hmin2 : (0 : ℚ) ≤ Min.min (ps / 100) 20 :=
    le_min (by positivity) (by norm_num)
  simp only [calculateTwitterProfileStrength, hf, hp, optNum]
  rw [JSNum.num_div_num f 1000 (by norm_num), JSNum.num_div_num ps 100 (by norm_num)]
  simp only [JSNum.minJ_num, JSNum.num_add_num]
  apply scoreFinal
  split_ifs <;> linarith

/-- `calculateLinkedInProfileStrength` yields an integer in `[0, 100]`
whenever the connection count is present and nonnegative. -/
theorem linkedinStrength_mem (p : Profile) (c : ℚ)
    (hc : p.connections = some c) (hc0 : 0 ≤ c) :
    ∃ n : ℕ, n ≤ 100 ∧ calculateLinkedInProfileStrength p = .num n := by
  have hmin1 : (0 : ℚ) ≤ Min.min (c / 10) 25 :=
    le_min (by positivity) (by norm_num)
  simp only [calculateLinkedInProfileStrength, hc, optNum]
  rw [JSNum.num_div_num c 10 (by norm_num)]
  simp only [JSNum.minJ_num, JSNum.num_add_num]
  apply scoreFinal
  split_ifs <;> linarith

/-- An if-then-else of natural values is a natural value. -/
theorem natIte (a : Prop) [Decidable a] (x y : ℚ)
    (hx : ∃ m : ℕ, x = (m : ℚ)) (hy : ∃ m : ℕ, y = (m : ℚ)) :
    ∃ m : ℕ, (if a then x else y) = (m : ℚ) := by
  split_ifs
  · exact hx
  · exact hy

/-- A sum of natural values is a natural value. -/
theorem natAdd (s x : ℚ) (hs : ∃ m : ℕ, s = (m : ℚ)) (hx : ∃ m : ℕ, x = (m : ℚ)) :
    ∃ m : ℕ, s + x = (m : ℚ) := by
  obtain ⟨ms, hms⟩ := hs
  obtain ⟨mx, hmx⟩ := hx
  exact ⟨ms + mx, by rw [hms, hmx]; push_cast; ring⟩

/-- A nonnegative rational with denominator one is a natural value. -/
theorem natDen (x : ℚ) (h0 : 0 ≤ x) (hden : x.den = 1) : ∃ m : ℕ, x = (m : ℚ) := by
  refine ⟨x.num.toNat, ?_⟩
  have h1 : ((x.num : ℤ) : ℚ) = x := by
    rw [← Rat.num_div_den x, hden]
    norm_num
  have h2 : (0 : ℤ) ≤ x.num := by
    rw [← Rat.num_nonneg] at h0
    exact h0
  rw [← h1]
  exact_mod_cast congrArg (fun z : ℤ => (z : ℚ)) (Int.toNat_of_nonneg h2).symm

/-- `Math.min(100, Math.round(s))` of a natural-valued score is a
natural number at most 100. -/
theorem scoreFinalNatRound (s : ℚ) (h : ∃ m : ℕ, s = (m : ℚ)) :
    ∃ n : ℕ, n ≤ 100 ∧ JSNum.minJ (.num 100) (JSNum.round (.num s)) = .num n := by
  obtain ⟨m, rfl⟩ := h
  have hfloor : (⌊(m : ℚ) + 1/2⌋ : ℤ) = (m : ℤ) := by
    apply Int.floor_eq_iff.mpr
    constructor
    · push_cast
      linarith
    · push_cast
      linarith
  refine ⟨Min.min 100 m, min_le_left _ _, ?_⟩
  simp only [JSNum.round_num, JSNum.minJ_num, hfloor, JSNum.num.injEq]
  push_cast
  norm_num

/-- `Math.min(100, s)` of a natural-valued score is a natural number at
most 100. -/
theorem scoreFinalNat (s : ℚ) (h : ∃ m : ℕ, s = (m : ℚ)) :
    ∃ n : ℕ, n ≤ 100 ∧ JSNum.minJ (.num 100) (.num s) = .num n := by
  obtain ⟨m, rfl⟩ := h
  refine ⟨Min.min 100 m, min_le_left _ _, ?_⟩
  simp only [JSNum.minJ_num, JSNum.num.injEq]
  push_cast
  norm_num

/-- A three-way bucket adding a nonnegative constant to a nonnegative
accumulator stays nonnegative. -/
theorem iteAddNonneg4 (s x y z w : ℚ) (a b c : Prop)
    [Decidable a] [Decidable b] [Decidable c]
    (hs : 0 ≤ s) (hx : 0 ≤ x) (hy : 0 ≤ y) (hz : 0 ≤ z) (hw : 0 ≤ w) :
    0 ≤ if a then s + x else if b then s + y else if c then s + z else s + w := by
  split_ifs <;> linarith

/-- `calculateTwitterEngagement` yields an integer in `[0, 100]` for
every profile (the bucket contributions are constants). -/
theorem engagement_mem (now : ℚ) (p : Profile) :
    ∃ n : ℕ, n ≤ 100 ∧ calculateTwitterEngagement now p = .num n := by
  simp only [calculateTwitterEngagement]
  apply scoreFinalNatRound
  repeat' first
    | apply natIte
    | apply natAdd
    | exact natDen _ (by norm_num) (by decide)

/-- `calculateNetworkReach` yields an integer in `[0, 100]` whenever the
declared count is present and nonnegative. -/
theorem reach_mem (cs : ConnectionSet) (l : List Profile) (k : ℚ)
    (hl : cs.followers = some l) (hk : cs.count = some k) (hk0 : 0 ≤ k) :
    ∃ n : ℕ, n ≤ 100 ∧ calculateNetworkReach (some cs) = .num n := by
  simp only [calculateNetworkReach, hl, hk]
  apply scoreFinal
  have htot : (0 : ℚ) ≤ (if k ≠ 0 then k else ((l.length : ℕ) : ℚ)) := by
    split_ifs
    · exact hk0
    · positivity
  have hmin1 : (0 : ℚ) ≤ Min.min ((if k ≠ 0 then k else ((l.length : ℕ) : ℚ)) / 10) 40 :=
    le_min (by positivity) (by norm_num)
  have hmin2 : (0 : ℚ) ≤
      Min.min ((((l.filter (fun f => truthyBool f.verified)).length : ℕ) : ℚ) * 5) 30 :=
    le_min (by positivity) (by norm_num)
  apply add_nonneg _ hmin2
  apply iteAddNonneg4 _ _ _ _ _ _ _ _ (by linarith) <;> norm_num

/-- `calculateInfluenceScore` yields an integer in `[0, 100]` whenever
its three component scores do. -/
theorem influence_mem (now : ℚ) (p : Profile) (cs : ConnectionSet)
    (l : List Profile) (f ps k : ℚ)
    (hf : p.followers = some f) (hf0 : 0 ≤ f)
    (hp : p.posts = some ps) (hp0 : 0 ≤ ps)
    (hl : cs.followers = some l) (hk : cs.count = some k) (hk0 : 0 ≤ k) :
    ∃ n : ℕ, n ≤ 100 ∧ calculateInfluenceScore now p (some cs) = .num n := by
  obtain ⟨a, ha, hea⟩ := twitterStrength_mem p f ps hf hf0 hp hp0
  obtain ⟨b, hb, heb⟩ := engagement_mem now p
  obtain ⟨c, hc, hec⟩ := reach_mem cs l k hl hk hk0
  have ha' : ((a : ℕ) : ℚ) ≤ 100 := by exact_mod_cast ha
  have hb' : ((b : ℕ) : ℚ) ≤ 100 := by exact_mod_cast hb
  have hc' : ((c : ℕ) : ℚ) ≤ 100 := by exact_mod_cast hc
  have ha0 : (0 : ℚ) ≤ ((a : ℕ) : ℚ) := by positivity
  have hb0 : (0 : ℚ) ≤ ((b : ℕ) : ℚ) := by positivity
  have hc0 : (0 : ℚ) ≤ ((c : ℕ) : ℚ) := by positivity
  simp only [calculateInfluenceScore, hea, heb, hec, JSNum.num_mul_num, JSNum.num_add_num,
    JSNum.round_num]
  have hx0 : (0 : ℚ) ≤ (a : ℚ) * (3/10) + (b : ℚ) * (4/10) + (c : ℚ) * (3/10) := by linarith
  have hx100 : (a : ℚ) * (3/10) + (b : ℚ) * (4/10) + (c : ℚ) * (3/10) ≤ 100 := by linarith
  have h0 : (0 : ℤ) ≤ ⌊(a : ℚ) * (3/10) + (b : ℚ) * (4/10) + (c : ℚ) * (3/10) + 1/2⌋ :=
    Int.floor_nonneg.mpr (by linarith)
  have h100 : ⌊(a : ℚ) * (3/10) + (b : ℚ) * (4/10) + (c : ℚ) * (3/10) + 1/2⌋ ≤ 100 := by
    have hlt : ⌊(a : ℚ) * (3/10) + (b : ℚ) * (4/10) + (c : ℚ) * (3/10) + 1/2⌋ < 101 :=
      Int.floor_lt.mpr (by push_cast; linarith)
    omega
  refine ⟨(⌊(a : ℚ) * (3/10) + (b : ℚ) * (4/10) + (c : ℚ) * (3/10) + 1/2⌋).toNat, by omega, ?_⟩
  simp only [JSNum.num.injEq]
  exact_mod_cast congrArg (fun z : ℤ => (z : ℚ)) (Int.toNat_of_nonneg h0).symm

/-- `calculateConsistencyScore` yields an integer in `[0, 100]` for every
pair of profiles (all contributions are integer constants). -/
theorem consistency_mem (pT pL : Profile) :
    ∃ n : ℕ, n ≤ 100 ∧ calculateConsistencyScore pT pL = .num n := by
  simp only [calculateConsistencyScore]
  apply scoreFinalNat
  repeat' first
    | apply natIte
    | apply natAdd
    | exact natDen _ (by norm_num) (by decide)

/-- C3: for every valid (fully-populated, nonnegative-count) profile and
connection set, each of `calculateTwitterProfileStrength`,
`calculateTwitterEngagement`, `calculateNetworkReach`,
`calculateInfluenceScore`, `calculateLinkedInProfileStrength` and
`calculateConsistencyScore` returns an integer in the closed interval
`[0, 100]` (a natural number at most 100). -/
theorem claim_scores_in_range (now : ℚ) (p pT pL : Profile) (cs : ConnectionSet)
    (l : List Profile) (f ps c k : ℚ)
    (hf : p.followers = some f) (hf0 : 0 ≤ f)
    (hp : p.posts = some ps) (hp0 : 0 ≤ ps)
    (hc : p.connections = some c) (hc0 : 0 ≤ c)
    (hl : cs.followers = some l)
    (hk : cs.count = some k) (hk0 : 0 ≤ k) :
    (∃ n : ℕ, n ≤ 100 ∧ calculateTwitterProfileStrength p = .num n)
    ∧ (∃ n : ℕ, n ≤ 100 ∧ calculateTwitterEngagement now p = .num n)
    ∧ (∃ n : ℕ, n ≤ 100 ∧ calculateNetworkReach (some cs) = .num n)
    ∧ (∃ n : ℕ, n ≤ 100 ∧ calculateInfluenceScore now p (some cs) = .num n)
    ∧ (∃ n : ℕ, n ≤ 100 ∧ calculateLinkedInProfileStrength p = .num n)
    ∧ (∃ n : ℕ, n ≤ 100 ∧ calculateConsistencyScore pT pL = .num n) :=
  ⟨twitterStrength_mem p f ps hf hf0 hp hp0,
   engagement_mem now p,
   reach_mem cs l k hl hk hk0,
   influence_mem now p cs l f ps k hf hf0 hp hp0 hl hk hk0,
   linkedinStrength_mem p c hc hc0,
   consistency_mem pT pL⟩

/-- Witness for C3 at a concrete fully-populated profile pair and
connection set. -/
theorem claim_scores_in_range_witness :
    (∃ n : ℕ, n ≤ 100 ∧ calculateTwitterProfileStrength validTwitterProfile = .num n)
    ∧ (∃ n : ℕ, n ≤ 100 ∧ calculateTwitterEngagement 0 validTwitterProfile = .num n)
    ∧ (∃ n : ℕ, n ≤ 100 ∧ calculateNetworkReach (some validConnectionSet) = .num n)
    ∧ (∃ n : ℕ, n ≤ 100 ∧ calculateInfluenceScore 0 validTwitterProfile
        (some validConnectionSet) = .num n)
    ∧ (∃ n : ℕ, n ≤ 100 ∧ calculateLinkedInProfileStrength validTwitterProfile = .num n)
    ∧ (∃ n : ℕ, n ≤ 100 ∧
        calculateConsistencyScore validTwitterProfile validLinkedInProfile = .num n) :=
  claim_scores_in_range 0 validTwitterProfile validTwitterProfile validLinkedInProfile
    validConnectionSet [validFollower] 1200 40 80 1
    rfl (by norm_num) rfl (by norm_num) rfl (by norm_num) rfl rfl (by norm_num)

/-- `Math.min(100, Math.round(.))` is monotone. -/
theorem monoFinal (x y : ℚ) (h : x ≤ y) :
    ∃ q1 q2 : ℚ, JSNum.minJ (.num 100) (JSNum.round (.num x)) = .num q1
      ∧ JSNum.minJ (.num 100) (JSNum.round (.num y)) = .num q2 ∧ q1 ≤ q2 := by
  refine ⟨Min.min 100 ((⌊x + 1/2⌋ : ℤ) : ℚ), Min.min 100 ((⌊y + 1/2⌋ : ℤ) : ℚ),
    by simp, by simp, ?_⟩
  have hfl : ⌊x + 1/2⌋ ≤ ⌊y + 1/2⌋ := Int.floor_le_floor (by linarith)
  exact min_le_min (le_refl 100) (by exact_mod_cast hfl)

/-- The Twitter profile-strength accumulator, rewritten as a sum of
independent flag contributions. -/
theorem twitterStrength_eval (p : Profile) (f ps : ℚ)
    (hf : p.followers = some f) (hp : p.posts = some ps) :
    calculateTwitterProfileStrength p = JSNum.minJ (.num 100) (JSNum.round (.num
      ((if truthyStr p.name then (10 : ℚ) else 0)
        + (if truthyStr p.bio then (15 : ℚ) else 0)
        + (if truthyStr p.location then (10 : ℚ) else 0)
        + (if truthyStr p.external_url then (10 : ℚ) else 0)
        + (if truthyStr p.profile_image_url then (5 : ℚ) else 0)
        + (if truthyBool p.verified then (20 : ℚ) else 0)
        + Min.min (f / 1000) 30 + Min.min (ps / 100) 20))) := by
  simp only [calculateTwitterProfileStrength, hf, hp, optNum]
  rw [JSNum.num_div_num f 1000 (by norm_num), JSNum.num_div_num ps 100 (by norm_num)]
  simp only [JSNum.minJ_num, JSNum.num_add_num, JSNum.round_num, JSNum.num.injEq]
  congr 2
  congr 1
  split_ifs <;> ring

/-- The LinkedIn profile-strength accumulator, rewritten as a sum of
independent flag contributions. -/
theorem linkedinStrength_eval (p : Profile) (c : ℚ)
    (hc : p.connections = some c) :
    calculateLinkedInProfileStrength p = JSNum.minJ (.num 100) (JSNum.round (.num
      ((if truthyStr p.name then (10 : ℚ) else 0)
        + (if truthyStr p.headline then (15 : ℚ) else 0)
        + (if truthyStr p.summary then (20 : ℚ) else 0)
        + (if truthyStr p.location then (10 : ℚ) else 0)
        + (if truthyStr p.industry then (15 : ℚ) else 0)
        + (if truthyStr p.profile_image_url then (5 : ℚ) else 0)
        + Min.min (c / 10) 25))) := by
  simp only [calculateLinkedInProfileStrength, hc, optNum]
  rw [JSNum.num_div_num c 10 (by norm_num)]
  simp only [JSNum.minJ_num, JSNum.num_add_num, JSNum.round_num, JSNum.num.injEq]
  congr 2
  congr 1
  split_ifs <;> ring

set_option maxHeartbeats 1600000 in
/-- C7: adding an absent optional field (bio/summary, location, image) to
an otherwise-identical profile never decreases the profile-strength
score, for both platforms. -/
theorem claim_strength_monotone (p q : Profile) (f ps c : ℚ) (s : String)
    (hf : p.followers = some f) (hp : p.posts = some ps)
    (hc : q.connections = some c) :
    (∃ q1 q2 : ℚ, calculateTwitterProfileStrength {p with bio := none} = .num q1
      ∧ calculateTwitterProfileStrength {p with bio := some s} = .num q2 ∧ q1 ≤ q2)
    ∧ (∃ q1 q2 : ℚ, calculateTwitterProfileStrength {p with location := none} = .num q1
      ∧ calculateTwitterProfileStrength {p with location := some s} = .num q2 ∧ q1 ≤ q2)
    ∧ (∃ q1 q2 : ℚ, calculateTwitterProfileStrength {p with profile_image_url := none} = .num q1
      ∧ calculateTwitterProfileStrength {p with profile_image_url := some s} = .num q2 ∧ q1 ≤ q2)
    ∧ (∃ q1 q2 : ℚ, calculateLinkedInProfileStrength {q with summary := none} = .num q1
      ∧ calculateLinkedInProfileStrength {q with summary := some s} = .num q2 ∧ q1 ≤ q2)
    ∧ (∃ q1 q2 : ℚ, calculateLinkedInProfileStrength {q with location := none} = .num q1
      ∧ calculateLinkedInProfileStrength {q with location := some s} = .num q2 ∧ q1 ≤ q2)
    ∧ (∃ q1 q2 : ℚ, calculateLinkedInProfileStrength {q with profile_image_url := none} = .num q1
      ∧ calculateLinkedInProfileStrength {q with profile_image_url := some s} = .num q2
      ∧ q1 ≤ q2) := by
  refine ⟨?_, ?_, ?_, ?_, ?_, ?_⟩
  · rw [twitterStrength_eval {p with bio := none} f ps hf hp,
      twitterStrength_eval {p with bio := some s} f ps hf hp]
    refine monoFinal _ _ ?_
    dsimp only
    simp only [truthyStr, Bool.false_eq_true, if_false]
    split_ifs <;> linarith
  · rw [twitterStrength_eval {p with location := none} f ps hf hp,
      twitterStrength_eval {p with location := some s} f ps hf hp]
    refine monoFinal _ _ ?_
    dsimp only
    simp only [truthyStr, Bool.false_eq_true, if_false]
    split_ifs <;> linarith
  · rw [twitterStrength_eval {p with profile_image_url := none} f ps hf hp,
      twitterStrength_eval {p with profile_image_url := some s} f ps hf hp]
    refine monoFinal _ _ ?_
    dsimp only
    simp only [truthyStr, Bool.false_eq_true, if_false]
    split_ifs <;> linarith
  · rw [linkedinStrength_eval {q with summary := none} c hc,
      linkedinStrength_eval {q with summary := some s} c hc]
    refine monoFinal _ _ ?_
    dsimp only
    simp only [truthyStr, Bool.false_eq_true, if_false]
    split_ifs <;> linarith
  · rw [linkedinStrength_eval {q with location := none} c hc,
      linkedinStrength_eval {q with location := some s} c hc]
    refine monoFinal _ _ ?_
    dsimp only
    simp only [truthyStr, Bool.false_eq_true, if_false]
    split_ifs <;> linarith
  · rw [linkedinStrength_eval {q with profile_image_url := none} c hc,
      linkedinStrength_eval {q with profile_image_url := some s} c hc]
    refine monoFinal _ _ ?_
    dsimp only
    simp only [truthyStr, Bool.false_eq_true, if_false]
    split_ifs <;> linarith

/-- Witness for C7 at a concrete profile pair. -/
theorem claim_strength_monotone_witness :
    validTwitterProfile.followers = some 1200
    ∧ validTwitterProfile.posts = some 40
    ∧ validLinkedInProfile.connections = some 80
    ∧ (∃ q1 q2 : ℚ,
        calculateTwitterProfileStrength {validTwitterProfile with bio := none} = .num q1
        ∧ calculateTwitterProfileStrength {validTwitterProfile with bio := some "maker"} = .num q2
        ∧ q1 ≤ q2) :=
  ⟨rfl, rfl, rfl,
    (claim_strength_monotone validTwitterProfile validLinkedInProfile 1200 40 80 "maker"
      rfl rfl rfl).1⟩

/-- C4 counterexample: a LinkedIn profile with a missing headline makes
`generateLinkedInRecommendations`, `generateLinkedInOptimizationTips` and
hence `analyzeLinkedInProfile` throw, although every field is of valid
optional shape. -/
theorem claim_sparse_fields_counterexample :
    liProfileNoHeadline.headline = none
    ∧ generateLinkedInRecommendations liProfileNoHeadline {} = .error ()
    ∧ generateLinkedInOptimizationTips liProfileNoHeadline = .error ()
    ∧ analyzeLinkedInProfile liProfileNoHeadline {} = .error () :=
  ⟨rfl, rfl, rfl, rfl⟩

/-- C4 (amended): with the headline present (any string, all other
optional fields arbitrary, possibly absent), the LinkedIn scoring and
recommendation pipeline completes without throwing; the Twitter-side
functions are total in the embedding and never throw. -/
theorem claim_sparse_fields_tolerated (profile : Profile) (connections : ConnectionSet)
    (h : String) (hh : profile.headline = some h) :
    (∃ r, generateLinkedInRecommendations profile connections = .ok r)
    ∧ (∃ t, generateLinkedInOptimizationTips profile = .ok t)
    ∧ (∃ a, analyzeLinkedInProfile profile connections = .ok a) := by
  simp only [generateLinkedInRecommendations, generateLinkedInOptimizationTips,
    analyzeLinkedInProfile, hh]
  exact ⟨⟨_, rfl⟩, ⟨_, rfl⟩, ⟨_, rfl⟩⟩

/-- Witness for C4 (amended) at a concrete sparse profile with a
headline. -/
theorem claim_sparse_fields_tolerated_witness :
    validLinkedInProfile.headline = some "Engineer | Maker"
    ∧ ((∃ r, generateLinkedInRecommendations validLinkedInProfile {} = .ok r)
      ∧ (∃ t, generateLinkedInOptimizationTips validLinkedInProfile = .ok t)
      ∧ (∃ a, analyzeLinkedInProfile validLinkedInProfile {} = .ok a)) :=
  ⟨rfl, claim_sparse_fields_tolerated validLinkedInProfile {} "Engineer | Maker" rfl⟩

theorem digitChar_ne_underscore (d : ℕ) (hd : d < 10) : Nat.digitChar d ≠ '_' := by
  interval_cases d <;> decide

theorem digitChar_inj_lt (a b : ℕ) (ha : a < 10) (hb : b < 10)
    (h : Nat.digitChar a = Nat.digitChar b) : a = b := by
  revert h
  interval_cases a <;> interval_cases b <;> decide

theorem natToDecimalDigits_ne_nil (n : ℕ) : natToDecimalDigits n ≠ [] := by
  rw [natToDecimalDigits]
  split_ifs <;> simp

theorem natToDecimalDigits_no_underscore (n : ℕ) : '_' ∉ natToDecimalDigits n := by
  induction n using Nat.strong_induction_on with
  | _ n ih =>
    rw [natToDecimalDigits]
    split_ifs with h
    · simp only [List.mem_singleton]
      exact fun hc => digitChar_ne_underscore n h hc.symm
    · intro hmem
      rcases List.mem_append.mp hmem with hmem | hmem
      · exact ih (n / 10) (Nat.div_lt_self (by omega) (by omega)) hmem
      · simp only [List.mem_singleton] at hmem
        exact digitChar_ne_underscore (n % 10) (Nat.mod_lt n (by omega)) hmem.symm

theorem natToDecimalDigits_lt (n : ℕ) (h : n < 10) :
    natToDecimalDigits n = [Nat.digitChar n] := by
  rw [natToDecimalDigits]
  simp [h]

theorem natToDecimalDigits_ge (n : ℕ) (h : ¬ n < 10) :
    natToDecimalDigits n = natToDecimalDigits (n / 10) ++ [Nat.digitChar (n % 10)] := by
  rw [natToDecimalDigits]
  simp [h]

theorem natToDecimalDigits_inj (a : ℕ) :
    ∀ b : ℕ, natToDecimalDigits a = natToDecimalDigits b → a = b := by
  induction a using Nat.strong_induction_on with
  | _ a ih =>
    intro b h
    by_cases ha : a < 10 <;> by_cases hb : b < 10
    · rw [natToDecimalDigits_lt a ha, natToDecimalDigits_lt b hb] at h
      simp only [List.cons.injEq, and_true] at h
      exact digitChar_inj_lt a b ha hb h
    · rw [natToDecimalDigits_lt a ha, natToDecimalDigits_ge b hb] at h
      exfalso
      have hlen := congrArg List.length h
      simp only [List.length_singleton, List.length_append] at hlen
      have hnil : (natToDecimalDigits (b / 10)).length = 0 := by omega
      exact natToDecimalDigits_ne_nil (b / 10) (List.length_eq_zero.mp hnil)
    · rw [natToDecimalDigits_ge a ha, natToDecimalDigits_lt b hb] at h
      exfalso
      have hlen := congrArg List.length h
      simp only [List.length_singleton, List.length_append] at hlen
      have hnil : (natToDecimalDigits (a / 10)).length = 0 := by omega
      exact natToDecimalDigits_ne_nil (a / 10) (List.length_eq_zero.mp hnil)
    · rw [natToDecimalDigits_ge a ha, natToDecimalDigits_ge b hb] at h
      obtain ⟨h1, h2⟩ := List.append_inj' h (by rfl)
      simp only [List.cons.injEq, and_true] at h2
      have hmod : a % 10 = b % 10 :=
        digitChar_inj_lt _ _ (Nat.mod_lt a (by omega)) (Nat.mod_lt b (by omega)) h2
      have hdiv : a / 10 = b / 10 :=
        ih (a / 10) (Nat.div_lt_self (by omega) (by omega)) (b / 10) h1
      omega

theorem natToDecimal_inj (a b : ℕ) (h : natToDecimal a = natToDecimal b) : a = b := by
  apply natToDecimalDigits_inj
  have := congrArg String.data h
  simpa [natToDecimal] using this

theorem natToDecimal_no_underscore (n : ℕ) : '_' ∉ (natToDecimal n).data :=
  natToDecimalDigits_no_underscore n

theorem underscore_split (a : List Char) :
    ∀ (c b d : List Char), '_' ∉ a → '_' ∉ c →
      a ++ '_' :: b = c ++ '_' :: d → a = c ∧ b = d := by
  induction a with
  | nil =>
    intro c b d _ hc h
    cases c with
    | nil => simpa using h
    | cons y ys =>
      exfalso
      simp only [List.nil_append, List.cons_append, List.cons.injEq] at h
      apply hc
      rw [← h.1]
      exact List.mem_cons_self _ _
  | cons x xs ih =>
    intro c b d ha hc h
    cases c with
    | nil =>
      exfalso
      simp only [List.cons_append, List.nil_append, List.cons.injEq] at h
      apply ha
      rw [h.1]
      exact List.mem_cons_self _ _
    | cons y ys =>
      simp only [List.cons_append, List.cons.injEq] at h
      have hxs : '_' ∉ xs := fun hm => ha (List.mem_cons_of_mem _ hm)
      have hys : '_' ∉ ys := fun hm => hc (List.mem_cons_of_mem _ hm)
      obtain ⟨heq, htl⟩ := ih ys b d hxs hys h.2
      exact ⟨by rw [h.1, heq], htl⟩

/-- C9 counterexample: the underscore-joined cache keys are not
injective — two different `(platform, identifier)` pairs collide on
the same `analyzeUserProfile` cache key when the inputs themselves
contain underscores. -/
theorem claim_cache_key_collision :
    analyzeUserProfileCacheKey "twitter" "a_b" = analyzeUserProfileCacheKey "twitter_a" "b"
    ∧ ("twitter", "a_b") ≠ ("twitter_a", "b") := by
  constructor
  · rfl
  · decide

/-- C9 (amended): the cache keys are deterministic functions of their
input tuples, and injective provided the string inputs contain no
underscore (the key separator); the numeric bounding parameters are
rendered in decimal and never collide. -/
theorem claim_cache_keys_injective (p i p2 i2 : String) (d m d2 m2 : ℕ)
    (hp : noUnderscore p) (hi : noUnderscore i)
    (hp2 : noUnderscore p2) (hi2 : noUnderscore i2) :
    (analyzeUserProfileCacheKey p i = analyzeUserProfileCacheKey p2 i2
      → p = p2 ∧ i = i2)
    ∧ (findCrossplatformConnectionsCacheKey p i = findCrossplatformConnectionsCacheKey p2 i2
      → p = p2 ∧ i = i2)
    ∧ (generateNetworkMapCacheKey p i d m = generateNetworkMapCacheKey p2 i2 d2 m2
      → p = p2 ∧ i = i2 ∧ d = d2 ∧ m = m2) := by
  refine ⟨?_, ?_, ?_⟩
  · intro h
    have hd := congrArg String.data h
    simp only [analyzeUserProfileCacheKey, String.data_append, List.append_assoc,
      show ("_" : String).data = ['_'] from rfl, List.singleton_append] at hd
    have hd2 := List.append_cancel_left hd
    obtain ⟨h1, h2⟩ := underscore_split _ _ _ _ hp hp2 hd2
    exact ⟨String.ext h1, String.ext h2⟩
  · intro h
    have hd := congrArg String.data h
    simp only [findCrossplatformConnectionsCacheKey, String.data_append, List.append_assoc,
      show ("_" : String).data = ['_'] from rfl, List.singleton_append] at hd
    have hd2 := List.append_cancel_left hd
    obtain ⟨h1, h2⟩ := underscore_split _ _ _ _ hp hp2 hd2
    exact ⟨String.ext h1, String.ext h2⟩
  · intro h
    have hd := congrArg String.data h
    simp only [generateNetworkMapCacheKey, String.data_append, List.append_assoc,
      show ("_" : String).data = ['_'] from rfl, List.singleton_append] at hd
    have hd2 := List.append_cancel_left hd
    obtain ⟨h1, hrest⟩ := underscore_split _ _ _ _ hp hp2 hd2
    obtain ⟨h2, hrest2⟩ := underscore_split _ _ _ _ hi hi2 hrest
    obtain ⟨h3, h4⟩ := underscore_split _ _ _ _
      (natToDecimal_no_underscore d) (natToDecimal_no_underscore d2) hrest2
    refine ⟨String.ext h1, String.ext h2, ?_, ?_⟩
    · exact natToDecimal_inj d d2 (String.ext h3)
    · exact natToDecimal_inj m m2 (String.ext h4)

/-- Witness for C9 (amended) at concrete underscore-free inputs. -/
theorem claim_cache_keys_injective_witness :
    noUnderscore "twitter" ∧ noUnderscore "alice"
    ∧ (analyzeUserProfileCacheKey "twitter" "alice" = analyzeUserProfileCacheKey "twitter" "alice"
      → "twitter" = "twitter" ∧ "alice" = "alice") :=
  ⟨by unfold noUnderscore; decide, by unfold noUnderscore; decide,
    (claim_cache_keys_injective "twitter" "alice" "twitter" "alice" 2 100 2 100
      (by unfold noUnderscore; decide) (by unfold noUnderscore; decide)
      (by unfold noUnderscore; decide) (by unfold noUnderscore; decide)).1⟩

theorem buildLoop_nil (gl : ConnectionSet → Option (List Profile)) (pt et : String)
    (fetch : String → ℕ → Except String ConnectionSet) (depth maxN : ℕ)
    (processed : List String) (nodes : List GraphNode) (edges : List GraphEdge) :
    buildLoop gl pt et fetch depth maxN [] processed nodes edges = (nodes, edges) := by
  rw [buildLoop]

theorem buildLoop_cap (gl : ConnectionSet → Option (List Profile)) (pt et : String)
    (fetch : String → ℕ → Except String ConnectionSet) (depth maxN : ℕ)
    (profile : Profile) (d : ℕ) (rest : List (Profile × ℕ))
    (processed : List String) (nodes : List GraphNode) (edges : List GraphEdge)
    (h : ¬ nodes.length < maxN) :
    buildLoop gl pt et fetch depth maxN ((profile, d) :: rest) processed nodes edges
      = (nodes, edges) := by
  rw [buildLoop]
  simp [h]

theorem buildLoop_skip (gl : ConnectionSet → Option (List Profile)) (pt et : String)
    (fetch : String → ℕ → Except String ConnectionSet) (depth maxN : ℕ)
    (profile : Profile) (d : ℕ) (rest : List (Profile × ℕ))
    (processed : List String) (nodes : List GraphNode) (edges : List GraphEdge)
    (h : nodes.length < maxN)
    (hs : processed.contains profile.id ∨ depth ≤ d) :
    buildLoop gl pt et fetch depth maxN ((profile, d) :: rest) processed nodes edges
      = buildLoop gl pt et fetch depth maxN rest processed nodes edges := by
  rw [buildLoop]
  simp only [if_pos h, if_pos hs]

theorem buildLoop_proc_error (gl : ConnectionSet → Option (List Profile)) (pt et : String)
    (fetch : String → ℕ → Except String ConnectionSet) (depth maxN : ℕ)
    (profile : Profile) (d : ℕ) (rest : List (Profile × ℕ))
    (processed : List String) (nodes : List GraphNode) (edges : List GraphEdge)
    (e : String)
    (h : nodes.length < maxN)
    (hs : ¬ (processed.contains profile.id ∨ depth ≤ d))
    (hf : fetch profile.id 20 = .error e) :
    buildLoop gl pt et fetch depth maxN ((profile, d) :: rest) processed nodes edges
      = buildLoop gl pt et fetch depth maxN rest (profile.id :: processed)
          (nodes ++ [formatNodeForMap profile]) edges := by
  rw [buildLoop]
  simp only [if_pos h, if_neg hs, hf]

theorem buildLoop_proc_ok (gl : ConnectionSet → Option (List Profile)) (pt et : String)
    (fetch : String → ℕ → Except String ConnectionSet) (depth maxN : ℕ)
    (profile : Profile) (d : ℕ) (rest : List (Profile × ℕ))
    (processed : List String) (nodes : List GraphNode) (edges : List GraphEdge)
    (connections : ConnectionSet)
    (h : nodes.length < maxN)
    (hs : ¬ (processed.contains profile.id ∨ depth ≤ d))
    (hf : fetch profile.id 20 = .ok connections) :
    buildLoop gl pt et fetch depth maxN ((profile, d) :: rest) processed nodes edges
      = buildLoop gl pt et fetch depth maxN
          (rest ++ (expandConnections pt et profile.id d depth
            ((gl connections).getD []) (profile.id :: processed)).enqueued)
          (expandConnections pt et profile.id d depth
            ((gl connections).getD []) (profile.id :: processed)).processed
          ((nodes ++ [formatNodeForMap profile]) ++ (expandConnections pt et profile.id d depth
            ((gl connections).getD []) (profile.id :: processed)).leafNodes)
          (edges ++ (expandConnections pt et profile.id d depth
            ((gl connections).getD []) (profile.id :: processed)).newEdges) := by
  rw [buildLoop]
  simp only [if_pos h, if_neg hs, hf]

theorem contains_iff_mem (l : List String) (a : String) : l.contains a = true ↔ a ∈ l := by
  simp

theorem expand_nil (pt et pid : String) (d depth : ℕ) (processed : List String) :
    expandConnections pt et pid d depth [] processed = ⟨[], processed, [], []⟩ := rfl

theorem expand_enq (pt et pid : String) (d depth : ℕ) (c : Profile) (cs : List Profile)
    (processed : List String)
    (hc : ¬ processed.contains c.id = true) (hd : d + 1 < depth) :
    expandConnections pt et pid d depth (c :: cs) processed =
      ⟨({ c with platform := some pt }, d + 1)
          :: (expandConnections pt et pid d depth cs processed).enqueued,
        (expandConnections pt et pid d depth cs processed).processed,
        (expandConnections pt et pid d depth cs processed).leafNodes,
        { source := pid, target := c.id, type := et, platform := pt }
          :: (expandConnections pt et pid d depth cs processed).newEdges⟩ := by
  simp only [expandConnections, if_pos (And.intro hc hd)]

theorem expand_leaf (pt et pid : String) (d depth : ℕ) (c : Profile) (cs : List Profile)
    (processed : List String)
    (hc : ¬ processed.contains c.id = true) (hd : ¬ d + 1 < depth) :
    expandConnections pt et pid d depth (c :: cs) processed =
      ⟨(expandConnections pt et pid d depth cs (c.id :: processed)).enqueued,
        (expandConnections pt et pid d depth cs (c.id :: processed)).processed,
        formatNodeForMap { c with platform := some pt }
          :: (expandConnections pt et pid d depth cs (c.id :: processed)).leafNodes,
        { source := pid, target := c.id, type := et, platform := pt }
          :: (expandConnections pt et pid d depth cs (c.id :: processed)).newEdges⟩ := by
  simp only [expandConnections, if_neg (show ¬ (¬ processed.contains c.id = true ∧ d + 1 < depth)
    from fun h => hd h.2), if_pos hc]

theorem expand_skip (pt et pid : String) (d depth : ℕ) (c : Profile) (cs : List Profile)
    (processed : List String)
    (hc : processed.contains c.id = true) :
    expandConnections pt et pid d depth (c :: cs) processed =
      ⟨(expandConnections pt et pid d depth cs processed).enqueued,
        (expandConnections pt et pid d depth cs processed).processed,
        (expandConnections pt et pid d depth cs processed).leafNodes,
        { source := pid, target := c.id, type := et, platform := pt }
          :: (expandConnections pt et pid d depth cs processed).newEdges⟩ := by
  simp only [expandConnections, if_neg (show ¬ (¬ processed.contains c.id = true ∧ d + 1 < depth)
    from fun h => h.1 hc), if_neg (show ¬ ¬ processed.contains c.id = true from fun h => h hc)]

theorem expand_processed_mono (pt et pid : String) (d depth : ℕ) :
    ∀ (conns : List Profile) (processed : List String) (x : String),
      x ∈ processed → x ∈ (expandConnections pt et pid d depth conns processed).processed := by
  intro conns
  induction conns with
  | nil =>
    intro processed x hx
    rw [expand_nil]
    exact hx
  | cons c cs ih =>
    intro processed x hx
    by_cases hc : processed.contains c.id = true
    · rw [expand_skip pt et pid d depth c cs processed hc]
      exact ih processed x hx
    · by_cases hd : d + 1 < depth
      · rw [expand_enq pt et pid d depth c cs processed hc hd]
        exact ih processed x hx
      · rw [expand_leaf pt et pid d depth c cs processed hc hd]
        exact ih (c.id :: processed) x (List.mem_cons_of_mem _ hx)

theorem expand_leaf_ids_sub (pt et pid : String) (d depth : ℕ) :
    ∀ (conns : List Profile) (processed : List String),
      ∀ g ∈ (expandConnections pt et pid d depth conns processed).leafNodes,
        g.id ∈ (expandConnections pt et pid d depth conns processed).processed := by
  intro conns
  induction conns with
  | nil =>
    intro processed g hg
    rw [expand_nil] at hg
    simp at hg
  | cons c cs ih =>
    intro processed g hg
    by_cases hc : processed.contains c.id = true
    · rw [expand_skip pt et pid d depth c cs processed hc] at hg ⊢
      exact ih processed g hg
    · by_cases hd : d + 1 < depth
      · rw [expand_enq pt et pid d depth c cs processed hc hd] at hg ⊢
        exact ih processed g hg
      · rw [expand_leaf pt et pid d depth c cs processed hc hd] at hg ⊢
        rcases List.mem_cons.mp hg with hg | hg
        · subst hg
          exact expand_processed_mono pt et pid d depth cs (c.id :: processed) c.id
            (List.mem_cons_self _ _)
        · exact ih (c.id :: processed) g hg

theorem expand_leaf_fresh (pt et pid : String) (d depth : ℕ) :
    ∀ (conns : List Profile) (processed : List String),
      ∀ g ∈ (expandConnections pt et pid d depth conns processed).leafNodes,
        g.id ∉ processed := by
  intro conns
  induction conns with
  | nil =>
    intro processed g hg
    rw [expand_nil] at hg
    simp at hg
  | cons c cs ih =>
    intro processed g hg
    by_cases hc : processed.contains c.id = true
    · rw [expand_skip pt et pid d depth c cs processed hc] at hg
      exact ih processed g hg
    · by_cases hd : d + 1 < depth
      · rw [expand_enq pt et pid d depth c cs processed hc hd] at hg
        exact ih processed g hg
      · rw [expand_leaf pt et pid d depth c cs processed hc hd] at hg
        rcases List.mem_cons.mp hg with hg | hg
        · subst hg
          intro hmem
          exact hc ((contains_iff_mem processed c.id).mpr hmem)
        · intro hmem
          exact ih (c.id :: processed) g hg (List.mem_cons_of_mem _ hmem)

theorem expand_leaf_nodup (pt et pid : String) (d depth : ℕ) :
    ∀ (conns : List Profile) (processed : List String),
      ((expandConnections pt et pid d depth conns processed).leafNodes.map GraphNode.id).Nodup := by
  intro conns
  induction conns with
  | nil =>
    intro processed
    rw [expand_nil]
    simp
  | cons c cs ih =>
    intro processed
    by_cases hc : processed.contains c.id = true
    · rw [expand_skip pt et pid d depth c cs processed hc]
      exact ih processed
    · by_cases hd : d + 1 < depth
      · rw [expand_enq pt et pid d depth c cs processed hc hd]
        exact ih processed
      · rw [expand_leaf pt et pid d depth c cs processed hc hd]
        simp only [List.map_cons, List.nodup_cons]
        refine ⟨?_, ih (c.id :: processed)⟩
        intro hmem
        rcases List.mem_map.mp hmem with ⟨g, hg, hgid⟩
        exact expand_leaf_fresh pt et pid d depth cs (c.id :: processed) g hg
          (hgid ▸ List.mem_cons_self _ _)

theorem expand_leaf_len (pt et pid : String) (d depth : ℕ) :
    ∀ (conns : List Profile) (processed : List String),
      (expandConnections pt et pid d depth conns processed).leafNodes.length ≤ conns.length := by
  intro conns
  induction conns with
  | nil =>
    intro processed
    rw [expand_nil]
    simp
  | cons c cs ih =>
    intro processed
    by_cases hc : processed.contains c.id = true
    · rw [expand_skip pt et pid d depth c cs processed hc]
      calc _ ≤ cs.length := ih processed
        _ ≤ (c :: cs).length := by simp
    · by_cases hd : d + 1 < depth
      · rw [expand_enq pt et pid d depth c cs processed hc hd]
        calc _ ≤ cs.length := ih processed
          _ ≤ (c :: cs).length := by simp
      · rw [expand_leaf pt et pid d depth c cs processed hc hd]
        simp only [List.length_cons]
        exact Nat.succ_le_succ (ih (c.id :: processed))

theorem expand_edges_eq (pt et pid : String) (d depth : ℕ) :
    ∀ (conns : List Profile) (processed : List String),
      (expandConnections pt et pid d depth conns processed).newEdges
        = conns.map (fun c =>
            { source := pid, target := c.id, type := et, platform := pt }) := by
  intro conns
  induction conns with
  | nil =>
    intro processed
    rw [expand_nil]
    simp
  | cons c cs ih =>
    intro processed
    by_cases hc : processed.contains c.id = true
    · rw [expand_skip pt et pid d depth c cs processed hc]
      simp [ih processed]
    · by_cases hd : d + 1 < depth
      · rw [expand_enq pt et pid d depth c cs processed hc hd]
        simp [ih processed]
      · rw [expand_leaf pt et pid d depth c cs processed hc hd]
        simp [ih (c.id :: processed)]

theorem expand_enqueued_nil (pt et pid : String) (d depth : ℕ) (hdep : ¬ d + 1 < depth) :
    ∀ (conns : List Profile) (processed : List String),
      (expandConnections pt et pid d depth conns processed).enqueued = [] := by
  intro conns
  induction conns with
  | nil =>
    intro processed
    rw [expand_nil]
  | cons c cs ih =>
    intro processed
    by_cases hc : processed.contains c.id = true
    · rw [expand_skip pt et pid d depth c cs processed hc]
      exact ih processed
    · rw [expand_leaf pt et pid d depth c cs processed hc hdep]
      exact ih (c.id :: processed)

theorem formatNodeForMap_id (p : Profile) : (formatNodeForMap p).id = p.id := rfl

theorem nodup_step (ids : List String) (x : String) (leafIds : List String)
    (h1 : ids.Nodup) (hx : x ∉ ids) (h2 : leafIds.Nodup)
    (hfresh : ∀ y ∈ leafIds, y ≠ x ∧ y ∉ ids) :
    (ids ++ [x] ++ leafIds).Nodup := by
  rw [List.nodup_append, List.nodup_append]
  refine ⟨⟨h1, by simp, ?_⟩, h2, ?_⟩
  · intro a ha
    simp only [List.mem_singleton]
    intro hax
    exact hx (hax ▸ ha)
  · intro a ha hb
    rcases List.mem_append.mp ha with ha | ha
    · exact (hfresh a hb).2 ha
    · simp only [List.mem_singleton] at ha
      exact (hfresh a hb).1 ha

theorem buildLoop_nodup (gl : ConnectionSet → Option (List Profile)) (pt et : String)
    (fetch : String → ℕ → Except String ConnectionSet) (depth maxN : ℕ) :
    ∀ (queue : List (Profile × ℕ)) (processed : List String)
      (nodes : List GraphNode) (edges : List GraphEdge),
      ((nodes.map GraphNode.id).Nodup ∧ (∀ g ∈ nodes, g.id ∈ processed)) →
      (((buildLoop gl pt et fetch depth maxN queue processed nodes edges).1.map
        GraphNode.id).Nodup) := by
  intro queue processed nodes edges
  induction queue, processed, nodes, edges using buildLoop.induct gl pt et fetch depth maxN with
  | case1 processed nodes edges =>
    intro h
    rw [buildLoop_nil]
    exact h.1
  | case2 processed nodes edges profile currentDepth rest hcap hskip ih =>
    intro h
    rw [buildLoop_skip gl pt et fetch depth maxN profile currentDepth rest processed nodes
      edges hcap hskip]
    exact ih h
  | case3 processed nodes edges profile currentDepth rest hcap hskip processed1 nodes1 e hfetch ih =>
    intro h
    rw [buildLoop_proc_error gl pt et fetch depth maxN profile currentDepth rest processed
      nodes edges e hcap hskip hfetch]
    have hnotc : ¬ processed.contains profile.id = true := fun hcon => hskip (Or.inl hcon)
    have hnotin : profile.id ∉ processed := fun hm =>
      hnotc ((contains_iff_mem processed profile.id).mpr hm)
    apply ih
    constructor
    · show (List.map GraphNode.id (nodes ++ [formatNodeForMap profile])).Nodup
      simp only [List.map_append, List.map_cons, List.map_nil, formatNodeForMap_id]
      have hstep : (nodes.map GraphNode.id ++ [profile.id] ++ ([] : List String)).Nodup := by
        apply nodup_step _ _ _ h.1 ?_ (by simp) (by simp)
        intro hm
        rcases List.mem_map.mp hm with ⟨g, hg, hgid⟩
        exact hnotin (hgid ▸ h.2 g hg)
      simpa using hstep
    · show ∀ g ∈ nodes ++ [formatNodeForMap profile], g.id ∈ profile.id :: processed
      intro g hg
      rcases List.mem_append.mp hg with hg | hg
      · exact List.mem_cons_of_mem _ (h.2 g hg)
      · simp only [List.mem_singleton] at hg
        subst hg
        rw [formatNodeForMap_id]
        exact List.mem_cons_self _ _
  | case4 processed nodes edges profile currentDepth rest hcap hskip processed1 nodes1 connections hfetch r ih =>
    intro h
    rw [buildLoop_proc_ok gl pt et fetch depth maxN profile currentDepth rest processed
      nodes edges connections hcap hskip hfetch]
    have hnotc : ¬ processed.contains profile.id = true := fun hcon => hskip (Or.inl hcon)
    have hnotin : profile.id ∉ processed := fun hm =>
      hnotc ((contains_iff_mem processed profile.id).mpr hm)
    have hn1 : nodes1 = nodes ++ [formatNodeForMap profile] := rfl
    have hp1 : processed1 = profile.id :: processed := rfl
    apply ih
    constructor
    · rw [List.map_append, hn1, List.map_append, List.map_cons, List.map_nil,
        formatNodeForMap_id]
      apply nodup_step
      · exact h.1
      · intro hm
        rcases List.mem_map.mp hm with ⟨g, hg, hgid⟩
        exact hnotin (hgid ▸ h.2 g hg)
      · exact expand_leaf_nodup pt et profile.id currentDepth depth _ _
      · intro y hy
        rcases List.mem_map.mp hy with ⟨g, hg, hgid⟩
        have hfr := expand_leaf_fresh pt et profile.id currentDepth depth
          ((gl connections).getD []) processed1 g hg
        rw [hp1] at hfr
        subst hgid
        constructor
        · intro hyx
          exact hfr (hyx ▸ List.mem_cons_self _ _)
        · intro hmem
          rcases List.mem_map.mp hmem with ⟨g2, hg2, hgid2⟩
          exact hfr (List.mem_cons_of_mem _ (hgid2 ▸ h.2 g2 hg2))
    · intro g hg
      rcases List.mem_append.mp hg with hg | hg
      · rw [hn1] at hg
        rcases List.mem_append.mp hg with hg | hg
        · exact expand_processed_mono pt et profile.id currentDepth depth _ _ _
            (List.mem_cons_of_mem _ (h.2 g hg))
        · simp only [List.mem_singleton] at hg
          subst hg
          rw [formatNodeForMap_id]
          exact expand_processed_mono pt et profile.id currentDepth depth _ _ _
            (List.mem_cons_self _ _)
      · exact expand_leaf_ids_sub pt et profile.id currentDepth depth _ _ g hg
  | case5 processed nodes edges profile currentDepth rest hcap =>
    intro h
    rw [buildLoop_cap gl pt et fetch depth maxN profile currentDepth rest processed nodes
      edges hcap]
    exact h.1

example : (buildTwitterNetworkMap fetchTwoFollowers profileU1 1 1).1.length = 3 := by
  simp [buildTwitterNetworkMap, buildLoop, expandConnections, fetchTwoFollowers,
    csTwoFollowers, profileU1, profileC1, profileC2]

example : buildTwitterNetworkMap fetchTwoFollowers profileU1 0 10 = ([], []) := by
  simp [buildTwitterNetworkMap, buildLoop]

theorem buildLoop_edge_sources (gl : ConnectionSet → Option (List Profile)) (pt et : String)
    (fetch : String → ℕ → Except String ConnectionSet) (depth maxN : ℕ) :
    ∀ (queue : List (Profile × ℕ)) (processed : List String)
      (nodes : List GraphNode) (edges : List GraphEdge),
      (∀ e ∈ edges, e.source ∈ nodes.map GraphNode.id) →
      ∀ e2 ∈ (buildLoop gl pt et fetch depth maxN queue processed nodes edges).2,
        e2.source ∈ (buildLoop gl pt et fetch depth maxN queue processed nodes edges).1.map
          GraphNode.id := by
  intro queue processed nodes edges
  induction queue, processed, nodes, edges using buildLoop.induct gl pt et fetch depth maxN with
  | case1 processed nodes edges =>
    intro h
    rw [buildLoop_nil]
    exact h
  | case2 processed nodes edges profile currentDepth rest hcap hskip ih =>
    intro h
    rw [buildLoop_skip gl pt et fetch depth maxN profile currentDepth rest processed nodes
      edges hcap hskip]
    exact ih h
  | case3 processed nodes edges profile currentDepth rest hcap hskip processed1 nodes1 e hfetch ih =>
    intro h
    rw [buildLoop_proc_error gl pt et fetch depth maxN profile currentDepth rest processed
      nodes edges e hcap hskip hfetch]
    apply ih
    intro e2 he2
    have hn1 : nodes1 = nodes ++ [formatNodeForMap profile] := rfl
    rw [hn1, List.map_append]
    exact List.mem_append_left _ (h e2 he2)
  | case4 processed nodes edges profile currentDepth rest hcap hskip processed1 nodes1 connections hfetch r ih =>
    intro h
    rw [buildLoop_proc_ok gl pt et fetch depth maxN profile currentDepth rest processed
      nodes edges connections hcap hskip hfetch]
    apply ih
    intro e2 he2
    have hn1 : nodes1 = nodes ++ [formatNodeForMap profile] := rfl
    rw [List.map_append, hn1, List.map_append, List.map_cons, List.map_nil,
      formatNodeForMap_id]
    rcases List.mem_append.mp he2 with he2 | he2
    · exact List.mem_append_left _ (List.mem_append_left _ (h e2 he2))
    · have heq := expand_edges_eq pt et profile.id currentDepth depth
        ((gl connections).getD []) (profile.id :: processed)
      rw [heq] at he2
      rcases List.mem_map.mp he2 with ⟨c, _, hce⟩
      have : e2.source = profile.id := by rw [← hce]
      rw [this]
      exact List.mem_append_left _ (List.mem_append_right _ (List.mem_singleton.mpr rfl))
  | case5 processed nodes edges profile currentDepth rest hcap =>
    intro h
    rw [buildLoop_cap gl pt et fetch depth maxN profile currentDepth rest processed nodes
      edges hcap]
    exact h

theorem buildLoop_count (gl : ConnectionSet → Option (List Profile)) (pt et : String)
    (fetch : String → ℕ → Except String ConnectionSet) (depth maxN F : ℕ)
    (hF : ∀ (id : String) (n : ℕ) (cs : ConnectionSet),
      fetch id n = .ok cs → ((gl cs).getD []).length ≤ F) :
    ∀ (queue : List (Profile × ℕ)) (processed : List String)
      (nodes : List GraphNode) (edges : List GraphEdge),
      nodes.length ≤ maxN + F →
      (buildLoop gl pt et fetch depth maxN queue processed nodes edges).1.length ≤ maxN + F := by
  intro queue processed nodes edges
  induction queue, processed, nodes, edges using buildLoop.induct gl pt et fetch depth maxN with
  | case1 processed nodes edges =>
    intro h
    rw [buildLoop_nil]
    exact h
  | case2 processed nodes edges profile currentDepth rest hcap hskip ih =>
    intro h
    rw [buildLoop_skip gl pt et fetch depth maxN profile currentDepth rest processed nodes
      edges hcap hskip]
    exact ih h
  | case3 processed nodes edges profile currentDepth rest hcap hskip processed1 nodes1 e hfetch ih =>
    intro h
    rw [buildLoop_proc_error gl pt et fetch depth maxN profile currentDepth rest processed
      nodes edges e hcap hskip hfetch]
    apply ih
    have hn1 : nodes1 = nodes ++ [formatNodeForMap profile] := rfl
    rw [hn1]
    simp only [List.length_append, List.length_cons, List.length_nil]
    omega
  | case4 processed nodes edges profile currentDepth rest hcap hskip processed1 nodes1 connections hfetch r ih =>
    intro h
    rw [buildLoop_proc_ok gl pt et fetch depth maxN profile currentDepth rest processed
      nodes edges connections hcap hskip hfetch]
    apply ih
    have hr : r = expandConnections pt et profile.id currentDepth depth
      ((gl connections).getD []) (profile.id :: processed) := rfl
    have hn1 : nodes1 = nodes ++ [formatNodeForMap profile] := rfl
    have hlen := expand_leaf_len pt et profile.id currentDepth depth
      ((gl connections).getD []) (profile.id :: processed)
    have hFc := hF profile.id 20 connections hfetch
    rw [hr, hn1]
    simp only [List.length_append, List.length_cons, List.length_nil]
    omega
  | case5 processed nodes edges profile currentDepth rest hcap =>
    intro h
    rw [buildLoop_cap gl pt et fetch depth maxN profile currentDepth rest processed nodes
      edges hcap]
    exact h

theorem buildTwitter_depth0 (fetch : String → ℕ → Except String ConnectionSet)
    (center : Profile) (maxN : ℕ) :
    buildTwitterNetworkMap fetch center 0 maxN = ([], []) := by
  unfold buildTwitterNetworkMap
  rcases Nat.eq_zero_or_pos maxN with h | h
  · rw [buildLoop_cap _ _ _ _ _ _ center 0 [] [] [] [] (by omega)]
  · rw [buildLoop_skip _ _ _ _ _ _ center 0 [] [] [] [] (by simpa using h)
      (Or.inr (le_refl 0))]
    rw [buildLoop_nil]

theorem buildTwitter_depth1 (fetch : String → ℕ → Except String ConnectionSet)
    (center : Profile) (maxN : ℕ) (cs : ConnectionSet)
    (hmax : 0 < maxN) (hfetch : fetch center.id 20 = .ok cs) :
    formatNodeForMap center ∈ (buildTwitterNetworkMap fetch center 1 maxN).1
    ∧ (buildTwitterNetworkMap fetch center 1 maxN).2
      = (cs.followers.getD []).map (fun c =>
          { source := center.id, target := c.id, type := "follows", platform := "twitter" }) := by
  unfold buildTwitterNetworkMap
  rw [buildLoop_proc_ok _ _ _ fetch 1 maxN center 0 [] [] [] [] cs (by simpa using hmax)
    (by simp) hfetch]
  rw [expand_enqueued_nil "twitter" "follows" center.id 0 1 (by omega)]
  rw [show ([] : List (Profile × ℕ)) ++ [] = [] from rfl, buildLoop_nil]
  constructor
  · simp
  · rw [expand_edges_eq]
    simp

theorem buildLoop_swallow (gl : ConnectionSet → Option (List Profile)) (pt et : String)
    (fetch : String → ℕ → Except String ConnectionSet) (depth maxN : ℕ)
    (hempty : gl ({} : ConnectionSet) = none) :
    ∀ (queue : List (Profile × ℕ)) (processed : List String)
      (nodes : List GraphNode) (edges : List GraphEdge),
      buildLoop gl pt et fetch depth maxN queue processed nodes edges
        = buildLoop gl pt et (errorsToEmpty fetch) depth maxN queue processed nodes edges := by
  intro queue processed nodes edges
  induction queue, processed, nodes, edges using buildLoop.induct gl pt et fetch depth maxN with
  | case1 processed nodes edges =>
    rw [buildLoop_nil, buildLoop_nil]
  | case2 processed nodes edges profile currentDepth rest hcap hskip ih =>
    rw [buildLoop_skip gl pt et fetch depth maxN profile currentDepth rest processed nodes
      edges hcap hskip,
      buildLoop_skip gl pt et (errorsToEmpty fetch) depth maxN profile currentDepth rest
      processed nodes edges hcap hskip]
    exact ih
  | case3 processed nodes edges profile currentDepth rest hcap hskip processed1 nodes1 e hfetch ih =>
    have hok : errorsToEmpty fetch profile.id 20 = .ok ({} : ConnectionSet) := by
      simp [errorsToEmpty, hfetch]
    rw [buildLoop_proc_error gl pt et fetch depth maxN profile currentDepth rest processed
      nodes edges e hcap hskip hfetch,
      buildLoop_proc_ok gl pt et (errorsToEmpty fetch) depth maxN profile currentDepth rest
      processed nodes edges ({} : ConnectionSet) hcap hskip hok]
    rw [hempty]
    rw [show (Option.getD (none : Option (List Profile)) []) = [] from rfl]
    rw [expand_nil]
    simp only [List.append_nil]
    exact ih
  | case4 processed nodes edges profile currentDepth rest hcap hskip processed1 nodes1 connections hfetch r ih =>
    have hok : errorsToEmpty fetch profile.id 20 = .ok connections := by
      simp [errorsToEmpty, hfetch]
    rw [buildLoop_proc_ok gl pt et fetch depth maxN profile currentDepth rest processed
      nodes edges connections hcap hskip hfetch,
      buildLoop_proc_ok gl pt et (errorsToEmpty fetch) depth maxN profile currentDepth rest
      processed nodes edges connections hcap hskip hok]
    exact ih
  | case5 processed nodes edges profile currentDepth rest hcap =>
    rw [buildLoop_cap gl pt et fetch depth maxN profile currentDepth rest processed nodes
      edges hcap,
      buildLoop_cap gl pt et (errorsToEmpty fetch) depth maxN profile currentDepth rest
      processed nodes edges hcap]

/-- C5: no two entries of the node sequence returned by
`buildTwitterNetworkMap` / `buildLinkedInNetworkMap` share an id, for
every adapter behaviour, depth and node cap. -/
theorem claim_node_ids_unique (fetchT fetchL : String → ℕ → Except String ConnectionSet)
    (center : Profile) (depth maxNodes : ℕ) :
    ((buildTwitterNetworkMap fetchT center depth maxNodes).1.map GraphNode.id).Nodup
    ∧ ((buildLinkedInNetworkMap fetchL center depth maxNodes).1.map GraphNode.id).Nodup :=
  ⟨buildLoop_nodup _ _ _ fetchT depth maxNodes [(center, 0)] [] [] [] ⟨by simp, by simp⟩,
   buildLoop_nodup _ _ _ fetchL depth maxNodes [(center, 0)] [] [] [] ⟨by simp, by simp⟩⟩

/-- C10: every edge source id in a built map is the id of some emitted
node (edge sources never dangle; only targets may). -/
theorem claim_edge_sources_present (fetchT fetchL : String → ℕ → Except String ConnectionSet)
    (center : Profile) (depth maxNodes : ℕ) :
    (∀ e ∈ (buildTwitterNetworkMap fetchT center depth maxNodes).2,
      e.source ∈ (buildTwitterNetworkMap fetchT center depth maxNodes).1.map GraphNode.id)
    ∧ (∀ e ∈ (buildLinkedInNetworkMap fetchL center depth maxNodes).2,
      e.source ∈ (buildLinkedInNetworkMap fetchL center depth maxNodes).1.map GraphNode.id) :=
  ⟨buildLoop_edge_sources _ _ _ fetchT depth maxNodes [(center, 0)] [] [] [] (by simp),
   buildLoop_edge_sources _ _ _ fetchL depth maxNodes [(center, 0)] [] [] [] (by simp)⟩

/-- Witness for C10 at a concrete traversal with one emitted edge. -/
theorem claim_edge_sources_present_witness :
    ({ source := "u1", target := "c1", type := "follows", platform := "twitter" } : GraphEdge)
      ∈ (buildTwitterNetworkMap fetchTwoFollowers profileU1 1 5).2
    ∧ ({ source := "u1", target := "c1", type := "follows", platform := "twitter" } :
        GraphEdge).source
      ∈ (buildTwitterNetworkMap fetchTwoFollowers profileU1 1 5).1.map GraphNode.id := by
  have hmem : ({ source := "u1", target := "c1", type := "follows", platform := "twitter" } :
      GraphEdge) ∈ (buildTwitterNetworkMap fetchTwoFollowers profileU1 1 5).2 := by
    simp [buildTwitterNetworkMap, buildLoop, expandConnections, fetchTwoFollowers,
      csTwoFollowers, profileU1, profileC1, profileC2]
  exact ⟨hmem,
    (claim_edge_sources_present fetchTwoFollowers fetchTwoFollowers profileU1 1 5).1 _ hmem⟩

/-- C1 counterexample: with `maxNodes = 1`, `depth = 1` and a seed with
two followers, the builder emits three nodes — leaf-node pushes bypass
the cap check, so the node count exceeds `maxNodes`. -/
theorem claim_node_cap_counterexample :
    (buildTwitterNetworkMap fetchTwoFollowers profileU1 1 1).1.length = 3
    ∧ ¬ ((buildTwitterNetworkMap fetchTwoFollowers profileU1 1 1).1.length ≤ 1) := by
  have h : (buildTwitterNetworkMap fetchTwoFollowers profileU1 1 1).1.length = 3 := by
    simp [buildTwitterNetworkMap, buildLoop, expandConnections, fetchTwoFollowers,
      csTwoFollowers, profileU1, profileC1, profileC2]
  exact ⟨h, by rw [h]; decide⟩

/-- C1 (amended): when every connections fetch returns at most `F`
entries, the node count is bounded by `maxNodes + F` (the cap is checked
only at the top of the loop; the final iteration may overshoot by one
fetch worth of leaf nodes). -/
theorem claim_node_count_bounded (fetchT fetchL : String → ℕ → Except String ConnectionSet)
    (center : Profile) (depth maxNodes F : ℕ)
    (hT : ∀ (id : String) (n : ℕ) (cs : ConnectionSet),
      fetchT id n = .ok cs → (cs.followers.getD []).length ≤ F)
    (hL : ∀ (id : String) (n : ℕ) (cs : ConnectionSet),
      fetchL id n = .ok cs → (cs.connections.getD []).length ≤ F) :
    (buildTwitterNetworkMap fetchT center depth maxNodes).1.length ≤ maxNodes + F
    ∧ (buildLinkedInNetworkMap fetchL center depth maxNodes).1.length ≤ maxNodes + F :=
  ⟨buildLoop_count _ _ _ fetchT depth maxNodes F hT [(center, 0)] [] [] [] (by simp),
   buildLoop_count _ _ _ fetchL depth maxNodes F hL [(center, 0)] [] [] [] (by simp)⟩

/-- Witness for C1 (amended) with an adapter whose fetches all fail
(zero entries per fetch). -/
theorem claim_node_count_bounded_witness :
    (buildTwitterNetworkMap fetchAlwaysFails profileU1 2 5).1.length ≤ 5 + 0
    ∧ (buildLinkedInNetworkMap fetchAlwaysFails profileU1 2 5).1.length ≤ 5 + 0 :=
  claim_node_count_bounded fetchAlwaysFails fetchAlwaysFails profileU1 2 5 0
    (fun id n cs h => by simp [fetchAlwaysFails] at h)
    (fun id n cs h => by simp [fetchAlwaysFails] at h)

/-- C2 counterexample: at `depth = 0` the seed is skipped by the
`currentDepth >= depth` check before anything is emitted — the result
has no nodes and no edges although the seed has two fetched
connections. -/
theorem claim_depth_zero_counterexample :
    buildTwitterNetworkMap fetchTwoFollowers profileU1 0 10 = ([], [])
    ∧ (csTwoFollowers.followers.getD []).length = 2
    ∧ fetchTwoFollowers profileU1.id 20 = .ok csTwoFollowers := by
  refine ⟨?_, rfl, rfl⟩
  simp [buildTwitterNetworkMap, buildLoop]

/-- C2 (amended): at `depth = 0` the builder emits nothing (the seed is
skipped by the depth check); the edges-at-the-boundary behaviour occurs
one level up: at `depth = 1` the seed node is emitted and its fetched
connections produce exactly one outgoing edge each, while the children
are kept as unexpanded leaves. -/
theorem claim_depth_zero_behavior (fetch : String → ℕ → Except String ConnectionSet)
    (center : Profile) (maxNodes : ℕ) (cs : ConnectionSet)
    (hmax : 0 < maxNodes) (hfetch : fetch center.id 20 = .ok cs) :
    buildTwitterNetworkMap fetch center 0 maxNodes = ([], [])
    ∧ formatNodeForMap center ∈ (buildTwitterNetworkMap fetch center 1 maxNodes).1
    ∧ (buildTwitterNetworkMap fetch center 1 maxNodes).2
      = (cs.followers.getD []).map (fun c =>
          { source := center.id, target := c.id, type := "follows", platform := "twitter" }) :=
  ⟨buildTwitter_depth0 fetch center maxNodes,
   (buildTwitter_depth1 fetch center maxNodes cs hmax hfetch).1,
   (buildTwitter_depth1 fetch center maxNodes cs hmax hfetch).2⟩

/-- Witness for C2 (amended) at a concrete adapter and seed. -/
theorem claim_depth_zero_behavior_witness :
    buildTwitterNetworkMap fetchTwoFollowers profileU1 0 5 = ([], [])
    ∧ formatNodeForMap profileU1 ∈ (buildTwitterNetworkMap fetchTwoFollowers profileU1 1 5).1
    ∧ (buildTwitterNetworkMap fetchTwoFollowers profileU1 1 5).2
      = (csTwoFollowers.followers.getD []).map (fun c =>
          { source := profileU1.id, target := c.id, type := "follows",
            platform := "twitter" }) :=
  claim_depth_zero_behavior fetchTwoFollowers profileU1 5 csTwoFollowers (by decide) rfl

/-- C8: a failing connections fetch for any node is swallowed — the
build result is identical to the one obtained from an adapter returning
an empty connection set wherever the original fetch failed; previously
emitted nodes and edges are retained, the failed node contributes zero
edges, and the traversal continues (the builder never returns an
error). -/
theorem claim_fetch_failures_swallowed
    (fetchT fetchL : String → ℕ → Except String ConnectionSet)
    (center : Profile) (depth maxNodes : ℕ) :
    buildTwitterNetworkMap fetchT center depth maxNodes
      = buildTwitterNetworkMap (errorsToEmpty fetchT) center depth maxNodes
    ∧ buildLinkedInNetworkMap fetchL center depth maxNodes
      = buildLinkedInNetworkMap (errorsToEmpty fetchL) center depth maxNodes :=
  ⟨buildLoop_swallow _ _ _ fetchT depth maxNodes rfl [(center, 0)] [] [] [],
   buildLoop_swallow _ _ _ fetchL depth maxNodes rfl [(center, 0)] [] [] []⟩

/-- C6: whenever the center-profile fetch succeeds, `generateNetworkMap`
succeeds and its `center_node` is the formatted seed profile — also at
`depth = 0` or a node cap that stops traversal immediately. -/
theorem claim_center_node_always_present
    (tGP : String → Except String Profile) (tGF : String → ℕ → Except String ConnectionSet)
    (lGP : String → Except String Profile) (lGC : String → ℕ → Except String ConnectionSet)
    (platform userIdentifier : String) (depth maxNodes : ℕ) (p : Profile) :
    (jsToLowerCase platform = "twitter" → tGP userIdentifier = .ok p →
      ∃ m, generateNetworkMap tGP tGF lGP lGC platform userIdentifier depth maxNodes = .ok m
        ∧ m.center_node = some (formatNodeForMap p))
    ∧ (jsToLowerCase platform = "linkedin" → lGP userIdentifier = .ok p →
      ∃ m, generateNetworkMap tGP tGF lGP lGC platform userIdentifier depth maxNodes = .ok m
        ∧ m.center_node = some (formatNodeForMap p)) := by
  constructor
  · intro hpl hok
    simp only [generateNetworkMap, hpl, hok]
    split_ifs with h1
    · exact ⟨_, rfl, rfl⟩
    · exact absurd trivial h1
  · intro hpl hok
    simp only [generateNetworkMap, hpl, hok]
    split_ifs with h1
    · exact absurd h1 (by decide)
    · exact ⟨_, rfl, rfl⟩

/-- Witness for C6 at a concrete successful profile fetch with
`depth = 0`. -/
theorem claim_center_node_always_present_witness :
    (∃ m, generateNetworkMap getProfileU1 fetchAlwaysFails getProfileU1 fetchAlwaysFails
        "twitter" "alice" 0 10 = .ok m
      ∧ m.center_node = some (formatNodeForMap profileU1)) :=
  (claim_center_node_always_present getProfileU1 fetchAlwaysFails getProfileU1
    fetchAlwaysFails "twitter" "alice" 0 10 profileU1).1 (by decide) rfl
